import Mathlib

/-!
# Verification of the savant-API-v3 aggregation endpoint

Shallow embedding of the team-identity resolver, the "column hunter"
field extractor, the stats synthesizer, the source cache and the
schedule/odds adapter of the repository, together with proofs about the
claims of the specification.

The repository contains several successive handler variants of the same
endpoint.  Where a claim cites more than one variant we embed each cited
variant separately:

* variant A — `src/api/index.ts` lines 1–293 (first handler: map lookup on
  the raw input, truncated-prefix fallback, goalie logic, unguarded
  special-teams denominators);
* variant B — `src/api/index.ts` lines 294–474 (second handler: raw-code
  row matching, `|| 1` guarded denominators, `{name, error}` not-found
  marker, odds default `{source: "ESPN", line: "OFF", total: "6.5"}`);
* variant C — `src/api/index.ts` lines 520–681 (third handler: cleaned
  map lookup, `|| 1` guards with `> 0` checks, `|| 50` high-danger
  wildcard);
* part_000 — `src/unnamed/part_000` (hybrid handler; its
  `normalizeTeamCode` and null-guarded `getFloat` are the final forms).

JavaScript numbers are modelled by `JsNum`: exact rational arithmetic
extended with NaN and signed infinities following the IEEE-754 special
value rules (an idealisation without rounding or overflow, which is
faithful for the zero-guard / special-value properties at issue).
-/

/-- Model of a JavaScript number: a finite rational, NaN, or a signed
infinity (`inf true` is `+Infinity`). -/
inductive JsNum where
  | nan : JsNum
  | inf : Bool → JsNum
  | fin : ℚ → JsNum
deriving DecidableEq

namespace JsNum

/-- `Number.isNaN`. -/
def isNaN : JsNum → Bool
  | nan => true
  | _ => false

/-- `Number.isFinite`. -/
def isFinite : JsNum → Bool
  | fin _ => true
  | _ => false

/-- JavaScript truthiness of a number: `0` and `NaN` are falsy. -/
def truthy : JsNum → Bool
  | nan => false
  | inf _ => true
  | fin q => q != 0

end JsNum

/-- JavaScript `a || b` restricted to numeric `a`. -/
def jsOr (a b : JsNum) : JsNum := if a.truthy then a else b

/-- JavaScript `+` on numbers (IEEE special-value rules, exact finite part). -/
def jsAdd : JsNum → JsNum → JsNum
  | .nan, _ => .nan
  | _, .nan => .nan
  | .inf s, .inf t => if s = t then .inf s else .nan
  | .inf s, .fin _ => .inf s
  | .fin _, .inf t => .inf t
  | .fin a, .fin b => .fin (a + b)

/-- JavaScript `-` on numbers. -/
def jsSub : JsNum → JsNum → JsNum
  | .nan, _ => .nan
  | _, .nan => .nan
  | .inf s, .inf t => if s = t then .nan else .inf s
  | .inf s, .fin _ => .inf s
  | .fin _, .inf t => .inf (!t)
  | .fin a, .fin b => .fin (a - b)

/-- JavaScript `*` on numbers. -/
def jsMul : JsNum → JsNum → JsNum
  | .nan, _ => .nan
  | _, .nan => .nan
  | .inf s, .inf t => .inf (s = t)
  | .inf s, .fin b => if b = 0 then .nan else .inf (s = decide (0 < b))
  | .fin a, .inf t => if a = 0 then .nan else .inf (t = decide (0 < a))
  | .fin a, .fin b => .fin (a * b)

/-- JavaScript `/` on numbers.  `0/0` is NaN, `x/0` for `x ≠ 0` is a signed
infinity (the zero denominator is treated as `+0`, as produced by the
numeric literals and parsed CSV fields of this code base). -/
def jsDiv : JsNum → JsNum → JsNum
  | .nan, _ => .nan
  | _, .nan => .nan
  | .inf _, .inf _ => .nan
  | .inf s, .fin b => if b = 0 then .inf s else .inf (s = decide (0 < b))
  | .fin _, .inf _ => .fin 0
  | .fin a, .fin b =>
      if b = 0 then (if a = 0 then .nan else .inf (decide (0 < a)))
      else .fin (a / b)

/-- JavaScript `>` on numbers: any comparison with NaN is false. -/
def jsGt : JsNum → JsNum → Bool
  | .nan, _ => false
  | _, .nan => false
  | .inf s, .inf t => s && !t
  | .inf s, .fin _ => s
  | .fin _, .inf t => !t
  | .fin a, .fin b => decide (b < a)

/-- A raw value of a source record: `null`, a string, or a number
(absence (= `undefined`) is modelled by `Option`). -/
inductive JsValue where
  | vNull : JsValue
  | vStr : String → JsValue
  | vNum : JsNum → JsValue
deriving DecidableEq

/-- A `SourceRecord`: an open mapping from field name to raw value, as
produced by `parse(csv, { columns: true })`. -/
def Record := List (String × JsValue)
deriving DecidableEq

/-- Property access `row[key]` (first binding wins, like a JS object). -/
def rowField (r : Record) (k : String) : Option JsValue :=
  (List.find? (fun p => p.1 = k) r).map (·.2)

/-- ASCII whitespace (model of the whitespace skipped by `parseFloat`,
`String.prototype.trim`). -/
def isWs (c : Char) : Bool := c == ' ' || c == '\t' || c == '\n' || c == '\r'

/-- ASCII uppercasing of one character (model of the character action of
`String.prototype.toUpperCase`). -/
def upChar (c : Char) : Char :=
  if 97 ≤ c.toNat ∧ c.toNat ≤ 122 then Char.ofNat (c.toNat - 32) else c

/-- ASCII lowercasing of one character (`String.prototype.toLowerCase`). -/
def downChar (c : Char) : Char :=
  if 65 ≤ c.toNat ∧ c.toNat ≤ 90 then Char.ofNat (c.toNat + 32) else c

/-- `l.dropWhile` from both ends: model of `String.prototype.trim`. -/
def trimChars (l : List Char) : List Char :=
  (((l.dropWhile isWs).reverse.dropWhile isWs)).reverse

/-- `s.toUpperCase()`. -/
def jsUpper (s : String) : String := ⟨s.data.map upChar⟩

/-- `s.toLowerCase()`. -/
def jsLower (s : String) : String := ⟨s.data.map downChar⟩

/-- `input.toUpperCase().trim()` — the cleaning step of the final
`normalizeTeamCode` (part_000 line 18). -/
def jsClean (s : String) : String := ⟨trimChars (s.data.map upChar)⟩

/-- `s.substring(0, 3)`. -/
def strTake3 (s : String) : String := ⟨s.data.take 3⟩

/-- Parse a run of decimal digits: value so far, digit count, rest. -/
def digitsAux : List Char → ℕ → ℕ → ℕ × ℕ × List Char
  | [], v, k => (v, k, [])
  | c :: cs, v, k =>
      if c.isDigit then digitsAux cs (10 * v + (c.toNat - 48)) (k + 1)
      else (v, k, c :: cs)

/-- The rational value denoted by a sign, integer part, fraction digits
(`fp` over `fk` digits) and a decimal exponent. -/
def mkQ (pos : Bool) (ip fp : ℕ) (fk : ℕ) (e : ℤ) : ℚ :=
  (if pos then 1 else -1) * ((ip : ℚ) + (fp : ℚ) / 10 ^ fk) * 10 ^ e

/-- Model of JavaScript `parseFloat` on a string: skip leading whitespace,
optional sign, the literal `Infinity`, or the longest decimal prefix
(integer part, optional fraction, optional exponent); NaN when no digits
are found.  Exact rational arithmetic stands in for IEEE rounding. -/
def parseFloatStr (s : String) : JsNum :=
  let l := s.data.dropWhile isWs
  let sp : Bool × List Char :=
    match l with
    | '-' :: t => (false, t)
    | '+' :: t => (true, t)
    | t => (true, t)
  let pos := sp.1
  let l1 := sp.2
  if l1.take 8 = "Infinity".data then JsNum.inf pos
  else
    let (ip, ik, r1) := digitsAux l1 0 0
    let fr : ℕ × ℕ × List Char :=
      match r1 with
      | '.' :: t => digitsAux t 0 0
      | t => (0, 0, t)
    let (fp, fk, r2) := fr
    if ik + fk = 0 then JsNum.nan
    else
      let e : ℤ :=
        match r2 with
        | 'e' :: t | 'E' :: t =>
            let st : ℤ × List Char :=
              match t with
              | '-' :: u => (-1, u)
              | '+' :: u => (1, u)
              | u => (1, u)
            let (ev, ek, _) := digitsAux st.2 0 0
            if ek = 0 then 0 else st.1 * (ev : ℤ)
        | _ => 0
      JsNum.fin (mkQ pos ip fp fk e)

/-- `parseFloat` applied to a raw record value (`parseFloat(null)` is NaN;
a number is passed through). -/
def parseFloatV : JsValue → JsNum
  | .vNull => JsNum.nan
  | .vStr s => parseFloatStr s
  | .vNum n => n

/-- The loop body shared by every `getFloat` variant
(`src/api/index.ts` lines 28–34, part_000 lines 60–66): for each candidate
key in order, if the field is present, not null and not the empty string
and parses to a non-NaN number, return it; otherwise move on; default 0. -/
def getFloatLoop (r : Record) : List String → JsNum
  | [] => .fin 0
  | k :: ks =>
      match rowField r k with
      | none => getFloatLoop r ks
      | some v =>
          if v = .vNull ∨ v = .vStr "" then getFloatLoop r ks
          else
            let val := parseFloatV v
            if val.isNaN then getFloatLoop r ks else val

/-- `getFloat` of `src/api/index.ts` lines 27–35: no null guard, so
`row[key]` on a null/absent record throws a TypeError (modelled by
`Except.error`) as soon as the candidate list is nonempty. -/
def getFloatIdx (row : Option Record) (keys : List String) : Except Unit JsNum :=
  match row with
  | some r => .ok (getFloatLoop r keys)
  | none =>
      match keys with
      | [] => .ok (.fin 0)
      | _ :: _ => .error ()

/-- `getFloat` of part_000 lines 58–67: the `if (!row) return 0` guard
makes a null/absent record yield 0. -/
def getFloatSafe (row : Option Record) (keys : List String) : JsNum :=
  match row with
  | none => .fin 0
  | some r => getFloatLoop r keys

/-- Exact-key association lookup: JS object property access `map[key]`. -/
def lookupAlias : List (String × String) → String → Option String
  | [], _ => none
  | (k, v) :: rest, key => if key = k then some v else lookupAlias rest key

/-- The static alias table of variant A (`src/api/index.ts` lines 40–73),
with its mixed-case full-name keys, exactly as written. -/
def aliasMapA : List (String × String) :=
  [("S.J", "SJS"), ("SJ", "SJS"), ("San Jose Sharks", "SJS"),
   ("T.B", "TBL"), ("TB", "TBL"), ("Tampa Bay Lightning", "TBL"),
   ("L.A", "LAK"), ("LA", "LAK"), ("Los Angeles Kings", "LAK"),
   ("N.J", "NJD"), ("NJ", "NJD"), ("New Jersey Devils", "NJD"),
   ("NYR", "NYR"), ("New York Rangers", "NYR"),
   ("NYI", "NYI"), ("New York Islanders", "NYI"),
   ("VEG", "VGK"), ("VGK", "VGK"), ("Vegas Golden Knights", "VGK"),
   ("MTL", "MTL"), ("Montreal Canadiens", "MTL"),
   ("VAN", "VAN"), ("Vancouver Canucks", "VAN"),
   ("TOR", "TOR"), ("Toronto Maple Leafs", "TOR"),
   ("BOS", "BOS"), ("Boston Bruins", "BOS"),
   ("BUF", "BUF"), ("Buffalo Sabres", "BUF"),
   ("OTT", "OTT"), ("Ottawa Senators", "OTT"),
   ("FLA", "FLA"), ("Florida Panthers", "FLA"),
   ("DET", "DET"), ("Detroit Red Wings", "DET"),
   ("PIT", "PIT"), ("Pittsburgh Penguins", "PIT"),
   ("WSH", "WSH"), ("Washington Capitals", "WSH"),
   ("PHI", "PHI"), ("Philadelphia Flyers", "PHI"),
   ("CBJ", "CBJ"), ("Columbus Blue Jackets", "CBJ"),
   ("CAR", "CAR"), ("Carolina Hurricanes", "CAR"),
   ("CHI", "CHI"), ("Chicago Blackhawks", "CHI"),
   ("NSH", "NSH"), ("Nashville Predators", "NSH"),
   ("STL", "STL"), ("St. Louis Blues", "STL"),
   ("MIN", "MIN"), ("Minnesota Wild", "MIN"),
   ("WPG", "WPG"), ("Winnipeg Jets", "WPG"),
   ("COL", "COL"), ("Colorado Avalanche", "COL"),
   ("DAL", "DAL"), ("Dallas Stars", "DAL"),
   ("ARI", "UTA"), ("UTA", "UTA"), ("Utah Hockey Club", "UTA"),
   ("EDM", "EDM"), ("Edmonton Oilers", "EDM"),
   ("CGY", "CGY"), ("Calgary Flames", "CGY"),
   ("ANA", "ANA"), ("Anaheim Ducks", "ANA"),
   ("SEA", "SEA"), ("Seattle Kraken", "SEA")]

/-- The static alias table of the final resolver (part_000 lines 20–53 =
`src/api/index.ts` lines 538–571), all keys uppercase. -/
def aliasMapC : List (String × String) :=
  [("S.J", "SJS"), ("SJ", "SJS"), ("SAN JOSE SHARKS", "SJS"),
   ("T.B", "TBL"), ("TB", "TBL"), ("TAMPA BAY LIGHTNING", "TBL"),
   ("L.A", "LAK"), ("LA", "LAK"), ("LOS ANGELES KINGS", "LAK"),
   ("N.J", "NJD"), ("NJ", "NJD"), ("NEW JERSEY DEVILS", "NJD"),
   ("NYR", "NYR"), ("NEW YORK RANGERS", "NYR"),
   ("NYI", "NYI"), ("NEW YORK ISLANDERS", "NYI"),
   ("VEG", "VGK"), ("VGK", "VGK"), ("VEGAS GOLDEN KNIGHTS", "VGK"),
   ("MTL", "MTL"), ("MONTREAL CANADIENS", "MTL"),
   ("VAN", "VAN"), ("VANCOUVER CANUCKS", "VAN"),
   ("TOR", "TOR"), ("TORONTO MAPLE LEAFS", "TOR"),
   ("BOS", "BOS"), ("BOSTON BRUINS", "BOS"),
   ("BUF", "BUF"), ("BUFFALO SABRES", "BUF"),
   ("OTT", "OTT"), ("OTTAWA SENATORS", "OTT"),
   ("FLA", "FLA"), ("FLORIDA PANTHERS", "FLA"),
   ("DET", "DET"), ("DETROIT RED WINGS", "DET"),
   ("PIT", "PIT"), ("PITTSBURGH PENGUINS", "PIT"),
   ("WSH", "WSH"), ("WASHINGTON CAPITALS", "WSH"),
   ("PHI", "PHI"), ("PHILADELPHIA FLYERS", "PHI"),
   ("CBJ", "CBJ"), ("COLUMBUS BLUE JACKETS", "CBJ"),
   ("CAR", "CAR"), ("CAROLINA HURRICANES", "CAR"),
   ("CHI", "CHI"), ("CHICAGO BLACKHAWKS", "CHI"),
   ("NSH", "NSH"), ("NASHVILLE PREDATORS", "NSH"),
   ("STL", "STL"), ("ST. LOUIS BLUES", "STL"),
   ("MIN", "MIN"), ("MINNESOTA WILD", "MIN"),
   ("WPG", "WPG"), ("WINNIPEG JETS", "WPG"),
   ("COL", "COL"), ("COLORADO AVALANCHE", "COL"),
   ("DAL", "DAL"), ("DALLAS STARS", "DAL"),
   ("ARI", "UTA"), ("UTA", "UTA"), ("UTAH HOCKEY CLUB", "UTA"), ("UTAH", "UTA"),
   ("EDM", "EDM"), ("EDMONTON OILERS", "EDM"),
   ("CGY", "CGY"), ("CALGARY FLAMES", "CGY"),
   ("ANA", "ANA"), ("ANAHEIM DUCKS", "ANA"),
   ("SEA", "SEA"), ("SEATTLE KRAKEN", "SEA")]

/-- `normalizeTeamCode` of variant A (`src/api/index.ts` lines 38–78):
no cleaning before lookup; a 3-character non-key input is uppercased and
trusted; otherwise the table value, falling back to the uppercased
3-character prefix of the input. -/
def normalizeTeamCodeA (input : String) : String :=
  if input = "" then "UNK"
  else if input.length = 3 ∧ lookupAlias aliasMapA input = none then jsUpper input
  else
    match lookupAlias aliasMapA input with
    | some v => v
    | none => jsUpper (strTake3 input)

/-- `normalizeTeamCode` of part_000 lines 16–55 (= `src/api/index.ts`
lines 534–573): trim + uppercase, table lookup, 3-character pass-through,
otherwise the sentinel `"UNK"`. -/
def normalizeTeamCode (input : String) : String :=
  if input = "" then "UNK"
  else
    let clean := jsClean input
    match lookupAlias aliasMapC clean with
    | some v => v
    | none => if clean.length = 3 then clean else "UNK"

/-- String field access with JS coercion to the empty string for a
missing value (used for `row.team`, `g.name`, which the CSV parser always
yields as strings). -/
def strField (r : Record) (k : String) : String :=
  match rowField r k with
  | some (.vStr s) => s
  | _ => ""

/-- `row.situation === sit` (strict equality against a string literal). -/
def sitIs (r : Record) (sit : String) : Bool :=
  rowField r "situation" == some (.vStr sit)

/-- Row lookup of variant A (`src/api/index.ts` lines 220–221):
`cachedTeamStats.find(row => normalizeTeamCode(row.team) === teamCode &&
row.situation === sit)`. -/
def findRowA (teams : List Record) (code sit : String) : Option Record :=
  teams.find? (fun r => normalizeTeamCodeA (strField r "team") == code && sitIs r sit)

/-- Row lookup of variant B (`src/api/index.ts` lines 429–432):
`cachedTeamStats.find(r => r.team === code && r.situation === sit)` —
no normalization of the row's team code. -/
def findRowB (teams : List Record) (code sit : String) : Option Record :=
  teams.find? (fun r => rowField r "team" == some (.vStr code) && sitIs r sit)

/-- `split(" ").pop()`: the last space-separated fragment of a string. -/
def lastWord (s : String) : String := ((s.splitOn " ").getLast? ).getD ""

/-- Does `needle` occur contiguously inside `hay`? -/
def containsSub (needle : List Char) : List Char → Bool
  | [] => needle.isPrefixOf []
  | c :: t => needle.isPrefixOf (c :: t) || containsSub needle t

/-- `hay.includes(needle)` on strings. -/
def strIncludes (hay needle : String) : Bool := containsSub needle.data hay.data

/-- `teamGoalies.sort((a, b) => getFloat(b, ['gamesPlayed']) -
getFloat(a, ['gamesPlayed']))[0]` (`src/api/index.ts` lines 243–244):
the head of the stable descending sort by games played, i.e. the first
goalie record attaining the maximal `gamesPlayed` value. -/
def pickTopGoalie : List Record → Option Record
  | [] => none
  | g :: gs =>
      some (gs.foldl
        (fun best x =>
          if jsGt (getFloatLoop x ["gamesPlayed"]) (getFloatLoop best ["gamesPlayed"])
          then x else best) g)

/-- The goaltender object of variant A (`src/api/index.ts` lines 248–256,
280). -/
structure GoalieStats where
  name : String
  gsax : JsNum
  gaa : JsNum
  svPct : JsNum
  status : String
deriving DecidableEq

/-- The per-team statistics object of variant A (`src/api/index.ts`
lines 267–281). -/
structure TeamStatsA where
  name : String
  gfPerGame : JsNum
  gaPerGame : JsNum
  xgaPer60 : JsNum
  ppPercent : JsNum
  pkPercent : JsNum
  pimsPerGame : JsNum
  xgfPercent : JsNum
  hdcfPercent : JsNum
  shootingPercent : JsNum
  faceoffPercent : JsNum
  corsiPercent : JsNum
  goalie : GoalieStats
deriving DecidableEq

/-- Variant A high-danger extraction (`src/api/index.ts` line 263). -/
def hdForA (teamRow : Record) : JsNum :=
  getFloatLoop teamRow ["highDangerShotsFor", "highDangerGoalsFor", "flurryAdjustedxGoalsFor"]

/-- Variant A high-danger extraction (`src/api/index.ts` line 264). -/
def hdAgA (teamRow : Record) : JsNum :=
  getFloatLoop teamRow ["highDangerShotsAgainst", "highDangerGoalsAgainst", "flurryAdjustedxGoalsAgainst"]

/-- Variant A high-danger share (`src/api/index.ts` line 265):
`(hdFor + hdAg) > 0 ? (hdFor / (hdFor + hdAg)) * 100 : 50`. -/
def hdcfA (teamRow : Record) : JsNum :=
  if jsGt (jsAdd (hdForA teamRow) (hdAgA teamRow)) (.fin 0)
  then jsMul (jsDiv (hdForA teamRow) (jsAdd (hdForA teamRow) (hdAgA teamRow))) (.fin 100)
  else .fin 50

/-- The goalie-stats computation of variant A (`src/api/index.ts`
lines 249–256): `gTime = getFloat(goalieRow,['iceTime']) || 1` and the
per-3600-seconds rates. -/
def goalieStatsOf (g : Record) (status : String) : GoalieStats :=
  let gTime := jsOr (getFloatLoop g ["iceTime"]) (.fin 1)
  { name := strField g "name"
    gsax := jsMul (jsDiv (getFloatLoop g ["goalsSavedAboveExpected"]) gTime) (.fin 3600)
    gaa := jsDiv (jsMul (getFloatLoop g ["goalsAgainst"]) (.fin 3600)) gTime
    svPct := getFloatLoop g ["savePercentage"]
    status := status }

/-- `getSavantStats` of variant A (`src/api/index.ts` lines 219–282).
`Except.error` models the uncaught TypeError thrown at line 259 when the
"all situations" row is absent (`getFloat` dereferences the undefined
`teamAllRow`); `Except.ok none` is the bare `return null` of line 223
when the 5-on-5 row is absent.  The starter table maps a canonical code
to a confirmed starter name (status is always "Confirmed" upstream,
lines 172–177). -/
def getSavantStatsA (teamStats goalieStats : List Record)
    (starters : List (String × String)) (teamCode : String)
    (requestedGoalie : String) : Except Unit (Option TeamStatsA) :=
  match findRowA teamStats teamCode "5on5" with
  | none => .ok none
  | some teamRow =>
    let tg := if requestedGoalie = "" then
        match lookupAlias starters teamCode with
        | some nm => (nm, "Confirmed")
        | none => ("", "Unconfirmed")
      else (requestedGoalie, "Unconfirmed")
    let teamGoalies := goalieStats.filter
      (fun g => normalizeTeamCodeA (strField g "team") == teamCode)
    let goalieRow0 : Option Record :=
      if tg.1 = "" then none
      else teamGoalies.find?
        (fun g => strIncludes (jsLower (strField g "name")) (lastWord (jsLower tg.1)))
    let gr : Option Record × String :=
      match goalieRow0 with
      | some g => (some g, tg.2)
      | none =>
          match pickTopGoalie teamGoalies with
          | some g => (some g, "Projected #1")
          | none => (none, tg.2)
    let gStats : GoalieStats :=
      match gr.1 with
      | none => ⟨"Average Goalie", .fin 0, .fin 0, .fin (9/10), gr.2⟩
      | some g => goalieStatsOf g gr.2
    match findRowA teamStats teamCode "all" with
    | none => .error ()
    | some teamAllRow =>
      let iceTimeAll := jsOr (getFloatLoop teamAllRow ["iceTime"]) (.fin 1)
      let iceTime5v5 := jsOr (getFloatLoop teamRow ["iceTime"]) (.fin 1)
      .ok (some
        { name := teamCode
          gfPerGame := jsMul (jsDiv (getFloatLoop teamAllRow ["goalsFor"]) iceTimeAll) (.fin 3600)
          gaPerGame := jsMul (jsDiv (getFloatLoop teamAllRow ["goalsAgainst"]) iceTimeAll) (.fin 3600)
          xgaPer60 := jsMul (jsDiv (getFloatLoop teamRow ["xGoalsAgainst"]) iceTime5v5) (.fin 3600)
          ppPercent := jsOr (jsMul (jsDiv (getFloatLoop teamAllRow ["ppGoalsFor"])
                        (getFloatLoop teamAllRow ["penaltiesDrawn"])) (.fin 100)) (.fin 0)
          pkPercent := jsSub (.fin 100)
                        (jsOr (jsMul (jsDiv (getFloatLoop teamAllRow ["ppGoalsAgainst"])
                          (getFloatLoop teamAllRow ["penaltiesTaken"])) (.fin 100)) (.fin 0))
          pimsPerGame := jsOr (jsDiv (getFloatLoop teamAllRow ["penaltiesMinutes"])
                        (jsDiv iceTimeAll (.fin 3600))) (.fin 8)
          xgfPercent := jsMul (getFloatLoop teamRow ["xGoalsPercentage"]) (.fin 100)
          hdcfPercent := hdcfA teamRow
          shootingPercent := jsMul (getFloatLoop teamRow ["shootingPercentage"]) (.fin 100)
          faceoffPercent := jsMul (getFloatLoop teamAllRow ["faceOffWinPercentage"]) (.fin 100)
          corsiPercent := jsMul (getFloatLoop teamRow ["corsiPercentage"]) (.fin 100)
          goalie := gStats })

/-- The per-team statistics object of variant B (`src/api/index.ts`
lines 449–462). -/
structure TeamStatsB where
  name : String
  gfPerGame : JsNum
  gaPerGame : JsNum
  xgaPer60 : JsNum
  xgfPercent : JsNum
  hdcfPercent : JsNum
  ppPercent : JsNum
  pkPercent : JsNum
  pimsPerGame : JsNum
  faceoffPercent : JsNum
  shootingPercent : JsNum
  corsiPercent : JsNum
deriving DecidableEq

/-- Result of variant B's `getSavantStats`: either the marker object
`{ name: code, error: "Stats Not Found" }` (line 434) or the stats. -/
inductive StatsBResult where
  | notFound : String → StatsBResult
  | found : TeamStatsB → StatsBResult
deriving DecidableEq

/-- `getSavantStats` of variant B (`src/api/index.ts` lines 424–463):
`|| 1` guarded denominators, raw (unnormalized) row matching, optional
5-on-4 / 4-on-5 rows for special-teams counts. -/
def getSavantStatsB (teams : List Record) (code : String) : StatsBResult :=
  match findRowB teams code "5on5", findRowB teams code "all" with
  | some row5v5, some rowAll =>
    let iceAll := jsOr (getFloatLoop rowAll ["iceTime"]) (.fin 1)
    let ice5v5 := jsOr (getFloatLoop row5v5 ["iceTime"]) (.fin 1)
    let gp := jsOr (getFloatLoop rowAll ["gamesPlayed"]) (.fin 1)
    let ppGoals := match findRowB teams code "5on4" with
      | some rowPP => getFloatLoop rowPP ["goalsFor"]
      | none => .fin 0
    let ppOpps := jsOr (getFloatLoop rowAll ["penaltiesDrawn"]) (.fin 1)
    let pkGoalsAgainst := match findRowB teams code "4on5" with
      | some rowPK => getFloatLoop rowPK ["goalsAgainst"]
      | none => .fin 0
    let pkOpps := jsOr (getFloatLoop rowAll ["penaltiesTaken"]) (.fin 1)
    .found
      { name := code
        gfPerGame := jsMul (jsDiv (getFloatLoop rowAll ["goalsFor"]) iceAll) (.fin 3600)
        gaPerGame := jsMul (jsDiv (getFloatLoop rowAll ["goalsAgainst"]) iceAll) (.fin 3600)
        xgaPer60 := jsMul (jsDiv (getFloatLoop row5v5 ["xGoalsAgainst"]) ice5v5) (.fin 3600)
        xgfPercent := jsMul (getFloatLoop row5v5 ["xGoalsPercentage"]) (.fin 100)
        hdcfPercent := jsOr (jsMul (jsDiv (getFloatLoop row5v5 ["highDangerGoalsFor"])
                        (jsAdd (getFloatLoop row5v5 ["highDangerGoalsFor"])
                              (getFloatLoop row5v5 ["highDangerGoalsAgainst"]))) (.fin 100)) (.fin 50)
        ppPercent := jsMul (jsDiv ppGoals ppOpps) (.fin 100)
        pkPercent := jsSub (.fin 100) (jsMul (jsDiv pkGoalsAgainst pkOpps) (.fin 100))
        pimsPerGame := jsDiv (getFloatLoop rowAll ["penaltiesMinutes"]) gp
        faceoffPercent := jsMul (getFloatLoop rowAll ["faceOffWinPercentage"]) (.fin 100)
        shootingPercent := jsMul (getFloatLoop row5v5 ["shootingPercentage"]) (.fin 100)
        corsiPercent := jsMul (getFloatLoop row5v5 ["corsiPercentage"]) (.fin 100) }
  | _, _ => .notFound code

/-- Variant C power-play goal extraction (`src/api/index.ts` line 633). -/
def ppGoalsC (rowAll : Record) : JsNum :=
  getFloatLoop rowAll ["ppGoalsFor", "fiveOnFourGoalsFor"]

/-- Variant C power-play opportunity count (`src/api/index.ts` line 634):
`getFloat(rowAll, ['penaltiesDrawn', 'penaltiesDrawnPer60']) || 1`. -/
def ppOppsC (rowAll : Record) : JsNum :=
  jsOr (getFloatLoop rowAll ["penaltiesDrawn", "penaltiesDrawnPer60"]) (.fin 1)

/-- Variant C power-play percentage (`src/api/index.ts` line 635):
`ppOpps > 0 ? (ppGoals / ppOpps) * 100 : 0`. -/
def ppPercentC (rowAll : Record) : JsNum :=
  if jsGt (ppOppsC rowAll) (.fin 0)
  then jsMul (jsDiv (ppGoalsC rowAll) (ppOppsC rowAll)) (.fin 100)
  else .fin 0

/-- Variant C penalty-kill goals-against extraction (line 637). -/
def pkGoalsAgainstC (rowAll : Record) : JsNum :=
  getFloatLoop rowAll ["ppGoalsAgainst", "fiveOnFourGoalsAgainst"]

/-- Variant C penalty-kill opportunity count (line 638). -/
def pkOppsC (rowAll : Record) : JsNum :=
  jsOr (getFloatLoop rowAll ["penaltiesTaken", "penaltiesTakenPer60"]) (.fin 1)

/-- Variant C penalty-kill percentage (`src/api/index.ts` line 639):
`pkOpps > 0 ? 100 - ((pkGoalsAgainst / pkOpps) * 100) : 100`. -/
def pkPercentC (rowAll : Record) : JsNum :=
  if jsGt (pkOppsC rowAll) (.fin 0)
  then jsSub (.fin 100) (jsMul (jsDiv (pkGoalsAgainstC rowAll) (pkOppsC rowAll)) (.fin 100))
  else .fin 100

/-- Variant C high-danger "for" extraction (`src/api/index.ts` line 654). -/
def hdForC (row5v5 : Record) : JsNum :=
  getFloatLoop row5v5 ["highDangerGoalsFor", "HDGF", "highDangerShotsFor"]

/-- Variant C high-danger "against" extraction (line 655). -/
def hdAgC (row5v5 : Record) : JsNum :=
  getFloatLoop row5v5 ["highDangerGoalsAgainst", "HDGA", "highDangerShotsAgainst"]

/-- Variant C high-danger share (`src/api/index.ts` lines 654–655):
`(hdFor / (hdFor + hdAg)) * 100 || 50` — any falsy (0 or NaN) quotient is
replaced by the neutral 50. -/
def hdcfPercentC (row5v5 : Record) : JsNum :=
  jsOr (jsMul (jsDiv (hdForC row5v5) (jsAdd (hdForC row5v5) (hdAgC row5v5))) (.fin 100)) (.fin 50)

/-- Cache TTL for the analytics (MoneyPuck) datasets in variant A
(`src/api/index.ts` line 22): one hour, in milliseconds. -/
def STATS_CACHE : ℕ := 1000 * 60 * 60

/-- Cache TTL for odds/scoreboard data (`src/api/index.ts` line 23). -/
def ODDS_CACHE : ℕ := 1000 * 60 * 5

/-- Cache TTL for starting-goalie data (`src/api/index.ts` line 24). -/
def STARTER_CACHE : ℕ := 1000 * 60 * 15

/-- Cache TTL of part_000 line 13 and variant B line 311: 30 minutes. -/
def CACHE_DURATION : ℕ := 1000 * 60 * 30

/-- The refresh gate of variant A's analytics cache (`src/api/index.ts`
line 154): `!cachedTeamStats || (currentTime - lastStatsFetch > STATS_CACHE)`. -/
def shouldFetchStats (cached : Option (List Record)) (last now : ℤ) : Bool :=
  cached.isNone || decide (now - last > (STATS_CACHE : ℤ))

/-- The refresh gate of variant A's odds cache (line 185). -/
def shouldFetchOdds (cached : Option (List Record)) (last now : ℤ) : Bool :=
  cached.isNone || decide (now - last > (ODDS_CACHE : ℤ))

/-- The refresh gate of variant A's starter cache (line 166). -/
def shouldFetchStarter (cached : Option (List Record)) (last now : ℤ) : Bool :=
  cached.isNone || decide (now - last > (STARTER_CACHE : ℤ))

/-- The refresh gate of variant B's odds cache (`src/api/index.ts`
line 398): `!cachedEspnData || (currentTime - lastFetchTime > ODDS_CACHE)` —
it reads `lastFetchTime`, the timestamp of the ANALYTICS cache (no odds
timestamp is ever written in variant B). -/
def shouldFetchOddsB (cachedEspn : Option (List Record)) (lastFetchTime now : ℤ) : Bool :=
  cachedEspn.isNone || decide (now - lastFetchTime > (ODDS_CACHE : ℤ))

/-- The module-level analytics cache of variant A: the two datasets and
their shared last-fetch timestamp (`src/api/index.ts` lines 13–14, 18). -/
structure StatsCacheSt where
  teams : Option (List Record)
  goalies : Option (List Record)
  ts : ℤ
deriving DecidableEq

/-- One execution of the analytics refresh block of variant A
(`src/api/index.ts` lines 154–163).  `fetched` is the outcome of
`Promise.all` of the two `axios.get` calls (an error rejects before any
assignment); `parse` is the CSV parser, which may throw.  The returned
Bool is `true` when an exception propagated out of the block (it is then
caught by the top-level handler and becomes a 500).  The three
assignments run in source order: `cachedTeamStats = parse(teams.data)`,
`cachedGoalieStats = parse(goalies.data)`, `lastStatsFetch = currentTime`,
so a throw in the second `parse` leaves the first assignment in place. -/
def refreshStats (parse : String → Except Unit (List Record))
    (st : StatsCacheSt) (now : ℤ)
    (fetched : Except Unit (String × String)) : StatsCacheSt × Bool :=
  if shouldFetchStats st.teams st.ts now then
    match fetched with
    | .error _ => (st, true)
    | .ok (pt, pg) =>
        match parse pt with
        | .error _ => (st, true)
        | .ok dt =>
            match parse pg with
            | .error _ => ({ st with teams := some dt }, true)
            | .ok dg => ({ teams := some dt, goalies := some dg, ts := now }, false)
  else (st, false)

/-- The first listed betting market of a scheduled event:
`competitions[0].odds[0]` with its `details` and `overUnder` fields
(either may be absent). -/
structure OddsObj where
  details : Option String
  overUnder : Option JsNum
deriving DecidableEq

/-- A scoreboard event: the two competitors' abbreviations
(`competitors[0].team.abbreviation`, `competitors[1].team.abbreviation`)
and the optional first market. -/
structure EventR where
  abbrA : String
  abbrB : String
  odds : Option OddsObj
deriving DecidableEq

/-- The odds object of the stats response: `source`, `line`, `total`
(the total is a number when live, the string "6.5" when defaulted). -/
structure GameOddsR where
  src : String
  line : String
  total : JsValue
deriving DecidableEq

/-- The game matcher of variant A (`src/api/index.ts` lines 198–204):
find the event whose two NORMALIZED competitor codes equal the requested
pair in either order. -/
def matchGameA (events : List EventR) (targetHome targetAway : String) : Option EventR :=
  events.find? (fun e =>
    let tA := normalizeTeamCodeA e.abbrA
    let tB := normalizeTeamCodeA e.abbrB
    (tA == targetHome && tB == targetAway) || (tA == targetAway && tB == targetHome))

/-- The live odds object of variant A (lines 205–215):
`{source: "ESPN (Live)", line: details || "N/A", total: overUnder || 6.5}`,
built only when a game matched and its market is present. -/
def gameOddsA (events : List EventR) (th ta : String) : Option GameOddsR :=
  match matchGameA events th ta with
  | none => none
  | some e =>
      match e.odds with
      | none => none
      | some o =>
          some { src := "ESPN (Live)"
                 line := match o.details with
                   | some d => if d = "" then "N/A" else d
                   | none => "N/A"
                 total := match o.overUnder with
                   | some n => if n.truthy then .vNum n else .vNum (.fin (13/2))
                   | none => .vNum (.fin (13/2)) }

/-- The odds field of variant A's response (`src/api/index.ts` line 287):
`gameOdds || { source: "Not Found", line: "OFF", total: "6.5" }`. -/
def oddsResponseA (events : List EventR) (th ta : String) : GameOddsR :=
  (gameOddsA events th ta).getD { src := "Not Found", line := "OFF", total := .vStr "6.5" }

/-- The game matcher of variant B (`src/api/index.ts` lines 407–413):
RAW abbreviations are compared against the raw query parameters — no
normalization. -/
def matchGameB (events : List EventR) (pHome pAway : String) : Option EventR :=
  events.find? (fun e =>
    (e.abbrA == pHome && e.abbrB == pAway) || (e.abbrA == pAway && e.abbrB == pHome))

/-- The odds object of variant B (`src/api/index.ts` lines 397, 414–420):
initialized to `{source: "ESPN", line: "OFF", total: "6.5"}` and replaced
only when a game with a market is found. -/
def oddsResponseB (events : List EventR) (ph pa : String) : GameOddsR :=
  match matchGameB events ph pa with
  | some e =>
      match e.odds with
      | some o =>
          { src := "ESPN"
            line := match o.details with
              | some d => if d = "" then "OFF" else d
              | none => "OFF"
            total := match o.overUnder with
              | some n => if n.truthy then .vNum n else .vStr "6.5"
              | none => .vStr "6.5" }
      | none => { src := "ESPN", line := "OFF", total := .vStr "6.5" }
  | none => { src := "ESPN", line := "OFF", total := .vStr "6.5" }

/-- Variant B's stats response (`src/api/index.ts` lines 465–469): a 200
with independently computed home and away stats and the odds object. -/
structure RespB where
  status : ℕ
  home : StatsBResult
  away : StatsBResult
  odds : GameOddsR
deriving DecidableEq

/-- Assembly of variant B's 200 response. -/
def statsEndpointB (teams : List Record) (events : List EventR)
    (pHome pAway : String) : RespB :=
  { status := 200
    home := getSavantStatsB teams pHome
    away := getSavantStatsB teams pAway
    odds := oddsResponseB events pHome pAway }

/-- Is candidate field `k` usable in record `r`: present, not null, not
the empty string, and parsing to a non-NaN number? -/
def usableKey (r : Record) (k : String) : Bool :=
  match rowField r k with
  | none => false
  | some v => !(v == JsValue.vNull) && !(v == JsValue.vStr "") && !(parseFloatV v).isNaN

/-- Declarative characterization of the extractor loop: the parsed value
of the FIRST usable candidate in priority order, else 0. -/
def getFloatSpec (r : Record) (keys : List String) : JsNum :=
  match keys.find? (usableKey r) with
  | some k => parseFloatV ((rowField r k).getD JsValue.vNull)
  | none => .fin 0

/-- A concrete CSV parser outcome used to exercise the refresh block:
parses the payload "ok", rejects anything else. -/
def parseDemo (s : String) : Except Unit (List Record) :=
  if s = "ok" then .ok [[("team", JsValue.vStr "BOS")]] else .error ()

/-- A concrete pre-refresh cache state with old data and timestamp 0. -/
def stDemo : StatsCacheSt := { teams := some [], goalies := some [], ts := 0 }

/-- A 5-on-5 analytics row for BOS. -/
def row5Bos : Record :=
  [("team", JsValue.vStr "BOS"), ("situation", JsValue.vStr "5on5"),
   ("iceTime", JsValue.vStr "3600"), ("xGoalsAgainst", JsValue.vStr "2.5"),
   ("xGoalsPercentage", JsValue.vStr "0.55"), ("shootingPercentage", JsValue.vStr "0.08"),
   ("corsiPercentage", JsValue.vStr "0.51"),
   ("highDangerShotsFor", JsValue.vStr "10"), ("highDangerShotsAgainst", JsValue.vStr "8"),
   ("highDangerGoalsFor", JsValue.vStr "4"), ("highDangerGoalsAgainst", JsValue.vStr "2")]

/-- An "all situations" analytics row for BOS whose power-play
opportunity count is zero while two power-play goals are recorded. -/
def rowAllBosZeroOpp : Record :=
  [("team", JsValue.vStr "BOS"), ("situation", JsValue.vStr "all"),
   ("iceTime", JsValue.vStr "3600"), ("gamesPlayed", JsValue.vStr "1"),
   ("goalsFor", JsValue.vStr "3"), ("goalsAgainst", JsValue.vStr "2"),
   ("ppGoalsFor", JsValue.vStr "2"), ("penaltiesDrawn", JsValue.vStr "0"),
   ("ppGoalsAgainst", JsValue.vStr "0"), ("penaltiesTaken", JsValue.vStr "0"),
   ("penaltiesMinutes", JsValue.vStr "12"),
   ("faceOffWinPercentage", JsValue.vStr "0.5")]

/-- Projection: the `ppPercent` field of a variant A synthesizer result,
when one was produced. -/
def ppOfA (x : Except Unit (Option TeamStatsA)) : Option JsNum :=
  match x with
  | .ok (some s) => some s.ppPercent
  | _ => none

/-- A 5-on-5 row with zero high-danger goals for and five against. -/
def rowHdZero : Record :=
  [("highDangerGoalsFor", JsValue.vStr "0"), ("highDangerGoalsAgainst", JsValue.vStr "5")]

/-- A 5-on-5 row with equal nonzero high-danger shot counts. -/
def rowHdEqual : Record :=
  [("highDangerShotsFor", JsValue.vStr "3"), ("highDangerShotsAgainst", JsValue.vStr "3")]

/-- A goaltender record for BOS. -/
def goalieBos : Record :=
  [("name", JsValue.vStr "Jeremy Swayman"), ("team", JsValue.vStr "BOS"),
   ("iceTime", JsValue.vStr "3600"), ("goalsSavedAboveExpected", JsValue.vStr "5.5"),
   ("goalsAgainst", JsValue.vStr "20"), ("savePercentage", JsValue.vStr "0.92"),
   ("gamesPlayed", JsValue.vStr "30")]

/-- Does a variant B synthesizer result exist and carry only finite
numeric fields? -/
def allFiniteB : StatsBResult → Bool
  | .notFound _ => false
  | .found s =>
      s.gfPerGame.isFinite && s.gaPerGame.isFinite && s.xgaPer60.isFinite
      && s.xgfPercent.isFinite && s.hdcfPercent.isFinite && s.ppPercent.isFinite
      && s.pkPercent.isFinite && s.pimsPerGame.isFinite && s.faceoffPercent.isFinite
      && s.shootingPercent.isFinite && s.corsiPercent.isFinite

theorem jsAdd_fin (a b : ℚ) : jsAdd (.fin a) (.fin b) = .fin (a + b) := rfl

theorem jsSub_fin (a b : ℚ) : jsSub (.fin a) (.fin b) = .fin (a - b) := rfl

theorem jsMul_fin (a b : ℚ) : jsMul (.fin a) (.fin b) = .fin (a * b) := rfl

theorem jsDiv_fin_of_ne {b : ℚ} (a : ℚ) (h : b ≠ 0) :
    jsDiv (.fin a) (.fin b) = .fin (a / b) := by
  simp [jsDiv, h]

theorem jsDiv_zero_num {b : ℚ} (h : b ≠ 0) :
    jsDiv (.fin 0) (.fin b) = .fin 0 := by
  simp [jsDiv, h]

theorem jsDiv_pos_zero {a : ℚ} (h : 0 < a) :
    jsDiv (.fin a) (.fin 0) = .inf true := by
  simp [jsDiv, h, ne_of_gt h]

theorem jsDiv_one (x : JsNum) : jsDiv x (.fin 1) = x := by
  cases x with
  | nan => rfl
  | inf s => simp [jsDiv]
  | fin a => simp [jsDiv]

theorem jsOr_of_truthy {x : JsNum} (h : x.truthy = true) (y : JsNum) :
    jsOr x y = x := by simp [jsOr, h]

theorem jsOr_of_falsy {x : JsNum} (h : x.truthy = false) (y : JsNum) :
    jsOr x y = y := by simp [jsOr, h]

theorem truthy_fin_ne {q : ℚ} (h : q ≠ 0) : (JsNum.fin q).truthy = true := by
  simp [JsNum.truthy, h]

theorem truthy_fin_zero : (JsNum.fin 0).truthy = false := by
  simp [JsNum.truthy]

/-- `x || 1` for finite `x` is a finite nonzero value. -/
theorem orOne_fin {q : ℚ} (h : x = JsNum.fin q) :
    ∃ p : ℚ, jsOr x (.fin 1) = .fin p ∧ p ≠ 0 := by
  subst h
  by_cases hq : q = 0
  · subst hq
    exact ⟨1, by simp [jsOr, JsNum.truthy], one_ne_zero⟩
  · exact ⟨q, by simp [jsOr, JsNum.truthy, hq], hq⟩

theorem exists_fin_of_isFinite {x : JsNum} (h : x.isFinite = true) :
    ∃ q : ℚ, x = .fin q := by
  cases x with
  | nan => simp [JsNum.isFinite] at h
  | inf s => simp [JsNum.isFinite] at h
  | fin q => exact ⟨q, rfl⟩

theorem isFinite_fin (q : ℚ) : (JsNum.fin q).isFinite = true := rfl

/-- Any composition `(x / d) * c` with finite numerator and finite
nonzero denominator is finite. -/
theorem isFinite_div_mul {x : JsNum} {d : ℚ} (hx : x.isFinite = true)
    (hd : d ≠ 0) (c : ℚ) : (jsMul (jsDiv x (.fin d)) (.fin c)).isFinite = true := by
  obtain ⟨q, rfl⟩ := exists_fin_of_isFinite hx
  rw [jsDiv_fin_of_ne q hd, jsMul_fin]
  rfl

theorem isFinite_mul_fin {x : JsNum} (hx : x.isFinite = true) (c : ℚ) :
    (jsMul x (.fin c)).isFinite = true := by
  obtain ⟨q, rfl⟩ := exists_fin_of_isFinite hx
  rw [jsMul_fin]; rfl

theorem isFinite_div_fin {x : JsNum} (hx : x.isFinite = true) {d : ℚ}
    (hd : d ≠ 0) : (jsDiv x (.fin d)).isFinite = true := by
  obtain ⟨q, rfl⟩ := exists_fin_of_isFinite hx
  rw [jsDiv_fin_of_ne q hd]; rfl

theorem isFinite_sub_fin {x : JsNum} (c : ℚ) (hx : x.isFinite = true) :
    (jsSub (.fin c) x).isFinite = true := by
  obtain ⟨q, rfl⟩ := exists_fin_of_isFinite hx
  rw [jsSub_fin]; rfl

/-- The extractor loop agrees with its first-usable-candidate
characterization. -/
theorem getFloatLoop_eq_spec (r : Record) :
    ∀ keys : List String, getFloatLoop r keys = getFloatSpec r keys := by
  intro keys
  induction keys with
  | nil => rfl
  | cons k ks ih =>
    by_cases hu : usableKey r k = true
    · have hspec : getFloatSpec r (k :: ks) = parseFloatV ((rowField r k).getD JsValue.vNull) := by
        unfold getFloatSpec
        rw [List.find?_cons_of_pos _ hu]
      rw [hspec]
      unfold usableKey at hu
      cases hf : rowField r k with
      | none => rw [hf] at hu; simp at hu
      | some v =>
        rw [hf] at hu
        simp only [Bool.and_eq_true, Bool.not_eq_true', beq_eq_false_iff_ne,
          Bool.not_eq_true] at hu
        obtain ⟨⟨h1, h2⟩, h3⟩ := hu
        simp only [getFloatLoop, hf]
        rw [if_neg (by simp [h1, h2])]
        simp [h3]
    · replace hu : usableKey r k = false := by revert hu; cases usableKey r k <;> simp
      have hspec : getFloatSpec r (k :: ks) = getFloatSpec r ks := by
        unfold getFloatSpec
        rw [List.find?_cons_of_neg _ (by simp [hu])]
      rw [hspec, ← ih]
      unfold usableKey at hu
      cases hf : rowField r k with
      | none => simp only [getFloatLoop, hf]
      | some v =>
        rw [hf] at hu
        simp only [getFloatLoop, hf]
        by_cases h12 : v = JsValue.vNull ∨ v = JsValue.vStr ""
        · rw [if_pos h12]
        · rw [if_neg h12]
          push_neg at h12
          obtain ⟨h1, h2⟩ := h12
          have h3 : (parseFloatV v).isNaN = true := by
            by_contra hc
            replace hc : (parseFloatV v).isNaN = false := by
              revert hc; cases (parseFloatV v).isNaN <;> simp
            simp [h1, h2, hc] at hu
          simp [h3]

theorem upChar_idem (c : Char) : upChar (upChar c) = upChar c := by
  unfold upChar
  by_cases h : 97 ≤ c.toNat ∧ c.toNat ≤ 122
  · rw [if_pos h]
    have h65 : 65 ≤ c.toNat - 32 := by omega
    have h90 : c.toNat - 32 ≤ 90 := by omega
    generalize c.toNat - 32 = n at h65 h90
    interval_cases n <;> decide
  · rw [if_neg h, if_neg h]

theorem upChar_of_image {c : Char} (h : ∃ d, c = upChar d) : upChar c = c := by
  obtain ⟨d, rfl⟩ := h
  exact upChar_idem d

theorem map_upChar_idem (l : List Char) :
    (l.map upChar).map upChar = l.map upChar := by
  rw [List.map_map]
  apply List.map_congr_left
  intro c _
  exact upChar_idem c

/-- `dropWhile` is idempotent. -/
theorem dropWhile_idem' (p : Char → Bool) (l : List Char) :
    (l.dropWhile p).dropWhile p = l.dropWhile p := by
  induction l with
  | nil => rfl
  | cons c t ih =>
    by_cases h : p c = true
    · rw [List.dropWhile_cons_of_pos h]; exact ih
    · rw [List.dropWhile_cons_of_neg h, List.dropWhile_cons_of_neg h]

/-- No list returned by `dropWhile p` starts with a `p`-element. -/
theorem head_dropWhile_false (p : Char → Bool) (l : List Char) :
    ∀ c, (l.dropWhile p).head? = some c → p c = false := by
  induction l with
  | nil => intro c h; simp at h
  | cons a t ih =>
    intro c h
    by_cases ha : p a = true
    · rw [List.dropWhile_cons_of_pos ha] at h; exact ih c h
    · rw [List.dropWhile_cons_of_neg ha] at h
      simp at h
      subst h
      revert ha; cases p a <;> simp

/-- If a list does not start with a `p`-element, `dropWhile p` keeps it. -/
theorem dropWhile_of_head (p : Char → Bool) (l : List Char)
    (h : ∀ c, l.head? = some c → p c = false) : l.dropWhile p = l := by
  cases l with
  | nil => rfl
  | cons a t =>
    have := h a (by rfl)
    rw [List.dropWhile_cons_of_neg (by simp [this])]

/-- `dropWhile` returns a suffix: `∃ t, t ++ l.dropWhile p = l`. -/
theorem dropWhile_suffix_exists (p : Char → Bool) (l : List Char) :
    ∃ t, t ++ l.dropWhile p = l := by
  induction l with
  | nil => exact ⟨[], rfl⟩
  | cons a t ih =>
    by_cases h : p a = true
    · obtain ⟨u, hu⟩ := ih
      exact ⟨a :: u, by rw [List.dropWhile_cons_of_pos h, List.cons_append, hu]⟩
    · exact ⟨[], by rw [List.dropWhile_cons_of_neg (by simp [h]), List.nil_append]⟩

theorem head_append_of_some {l l' : List Char} {c : Char}
    (h : l.head? = some c) : (l ++ l').head? = some c := by
  cases l with
  | nil => simp at h
  | cons a t => simpa using h

/-- Back-trimming preserves "does not start with whitespace". -/
theorem trim_back_head (l : List Char)
    (h : ∀ c, l.head? = some c → isWs c = false) :
    ∀ c, ((l.reverse.dropWhile isWs).reverse).head? = some c → isWs c = false := by
  intro c hc
  obtain ⟨w, hw⟩ := dropWhile_suffix_exists isWs l.reverse
  apply h
  have : l = (l.reverse.dropWhile isWs).reverse ++ w.reverse := by
    have := congrArg List.reverse hw
    rw [List.reverse_append, List.reverse_reverse] at this
    exact this.symm
  rw [this]
  exact head_append_of_some hc

/-- `trimChars` is idempotent. -/
theorem trimChars_idem (l : List Char) : trimChars (trimChars l) = trimChars l := by
  have hfront : (trimChars l).dropWhile isWs = trimChars l := by
    apply dropWhile_of_head
    unfold trimChars
    exact trim_back_head _ (head_dropWhile_false isWs l)
  have hback : (trimChars l).reverse.dropWhile isWs = (trimChars l).reverse := by
    unfold trimChars
    rw [List.reverse_reverse]
    exact dropWhile_idem' isWs _
  unfold trimChars
  show ((((trimChars l).dropWhile isWs).reverse.dropWhile isWs)).reverse = trimChars l
  rw [hfront, hback, List.reverse_reverse]

/-- Elements of `trimChars l` come from `l`. -/
theorem mem_of_mem_trimChars {c : Char} {l : List Char}
    (h : c ∈ trimChars l) : c ∈ l := by
  unfold trimChars at h
  rw [List.mem_reverse] at h
  obtain ⟨w1, hw1⟩ := dropWhile_suffix_exists isWs (l.dropWhile isWs).reverse
  obtain ⟨w2, hw2⟩ := dropWhile_suffix_exists isWs l
  have h1 : c ∈ (l.dropWhile isWs).reverse := by
    rw [← hw1]; exact List.mem_append_right _ h
  rw [List.mem_reverse] at h1
  rw [← hw2]
  exact List.mem_append_right _ h1

/-- `jsClean` is idempotent. -/
theorem jsClean_idem (s : String) : jsClean (jsClean s) = jsClean s := by
  unfold jsClean
  have hdata : (String.mk (trimChars (s.data.map upChar))).data
      = trimChars (s.data.map upChar) := rfl
  rw [hdata]
  have hmap : (trimChars (s.data.map upChar)).map upChar
      = trimChars (s.data.map upChar) := by
    apply List.map_congr_left ?_ |>.trans (List.map_id _)
    intro c hc
    exact upChar_of_image ⟨_, (List.mem_map.mp (mem_of_mem_trimChars hc)).choose_spec.2.symm⟩
  rw [hmap, trimChars_idem]

theorem lookupAlias_mem :
    ∀ {m : List (String × String)} {k v : String},
      lookupAlias m k = some v → ∃ p, p ∈ m ∧ p.2 = v := by
  intro m
  induction m with
  | nil => intro k v h; simp [lookupAlias] at h
  | cons a t ih =>
    intro k v h
    obtain ⟨ak, av⟩ := a
    unfold lookupAlias at h
    by_cases hk : k = ak
    · rw [if_pos hk] at h
      exact ⟨(ak, av), List.mem_cons_self _ _, by injection h⟩
    · rw [if_neg hk] at h
      obtain ⟨p, hp, hv⟩ := ih h
      exact ⟨p, List.mem_cons_of_mem _ hp, hv⟩

/-- Every value of the final alias table is a fixed point of the final
resolver. -/
theorem aliasValsC_canon : ∀ p ∈ aliasMapC, normalizeTeamCode p.2 = p.2 := by decide

theorem normalizeTeamCode_of_ne {s : String} (h : s ≠ "") :
    normalizeTeamCode s =
      match lookupAlias aliasMapC (jsClean s) with
      | some v => v
      | none => if (jsClean s).length = 3 then jsClean s else "UNK" := by
  unfold normalizeTeamCode
  rw [if_neg h]

theorem jsClean_empty : jsClean "" = "" := by decide

theorem ne_empty_of_length3 {s : String} (h : s.length = 3) : s ≠ "" := by
  intro he
  rw [he] at h
  simp [String.length] at h

/-- The final resolver only depends on the cleaned input. -/
theorem normalizeTeamCode_clean (s : String) :
    normalizeTeamCode (jsClean s) = normalizeTeamCode s := by
  by_cases h0 : s = ""
  · subst h0; rw [jsClean_empty]
  · by_cases hc : jsClean s = ""
    · rw [hc]
      rw [normalizeTeamCode_of_ne h0, hc]
      decide
    · rw [normalizeTeamCode_of_ne hc, normalizeTeamCode_of_ne h0, jsClean_idem]

/-- C1 (corrected).  The final resolver (part_000 lines 16–55,
`src/api/index.ts` lines 534–573) behaves as claimed: it depends only on
the trimmed-and-uppercased input (clause 5), maps the empty input to
"UNK" (clause 1), returns the table value of the cleaned input when one
exists (clause 2), accepts an unmatched 3-character cleaned input as-is
(clause 3), and yields "UNK" for every other unmatched input (clause 4).
The variant-A resolver (`src/api/index.ts` lines 38–78) cited by the
claim instead falls back to the uppercased 3-character prefix for a long
unmatched input (clause 6), so the claim's "never any other fallback such
as a truncated prefix" fails for it — see the counterexample. -/
theorem C1_theorem :
    (normalizeTeamCode "" = "UNK")
    ∧ (∀ s v, s ≠ "" → lookupAlias aliasMapC (jsClean s) = some v →
        normalizeTeamCode s = v)
    ∧ (∀ s, s ≠ "" → lookupAlias aliasMapC (jsClean s) = none →
        (jsClean s).length = 3 → normalizeTeamCode s = jsClean s)
    ∧ (∀ s, s ≠ "" → lookupAlias aliasMapC (jsClean s) = none →
        (jsClean s).length ≠ 3 → normalizeTeamCode s = "UNK")
    ∧ (∀ s, normalizeTeamCode (jsClean s) = normalizeTeamCode s)
    ∧ (∀ s, s ≠ "" → lookupAlias aliasMapA s = none → s.length ≠ 3 →
        normalizeTeamCodeA s = jsUpper (strTake3 s)) := by
  refine ⟨by decide, ?_, ?_, ?_, normalizeTeamCode_clean, ?_⟩
  · intro s v h0 hl
    rw [normalizeTeamCode_of_ne h0, hl]
  · intro s h0 hl hlen
    rw [normalizeTeamCode_of_ne h0, hl]
    simp [hlen]
  · intro s h0 hl hlen
    rw [normalizeTeamCode_of_ne h0, hl]
    simp [hlen]
  · intro s h0 hl hlen
    unfold normalizeTeamCodeA
    rw [if_neg h0, if_neg (by intro hc; exact hlen hc.1), hl]

/-- C1 witness: the final resolver on a full name with noise, an
unknown 3-letter code, and a long unknown name. -/
theorem C1_witness :
    normalizeTeamCode " boston bruins " = "BOS"
    ∧ normalizeTeamCode "xyz" = jsClean "xyz"
    ∧ normalizeTeamCode "Gritty" = "UNK" :=
  ⟨C1_theorem.2.1 " boston bruins " "BOS" (by decide) (by decide),
   C1_theorem.2.2.1 "xyz" (by decide) (by decide) (by decide),
   C1_theorem.2.2.2.1 "Gritty" (by decide) (by decide) (by decide)⟩

/-- C1 counterexample: the resolver of `src/api/index.ts` lines 38–78
maps the unmatched long input "Foobar" to its uppercased 3-character
prefix "FOO", not to the sentinel "UNK" required by the claim. -/
theorem C1_counterexample :
    normalizeTeamCodeA "Foobar" = "FOO" ∧ normalizeTeamCodeA "Foobar" ≠ "UNK" := by
  constructor <;> decide

/-- C10 (corrected).  The final resolver (part_000 lines 16–55,
`src/api/index.ts` lines 534–573) is idempotent: every output — a table
value, an accepted 3-character cleaned code, or "UNK" — resolves to
itself. -/
theorem C10_theorem (s : String) :
    normalizeTeamCode (normalizeTeamCode s) = normalizeTeamCode s := by
  by_cases h0 : s = ""
  · subst h0; decide
  · rw [normalizeTeamCode_of_ne h0]
    cases hl : lookupAlias aliasMapC (jsClean s) with
    | some v =>
      obtain ⟨p, hp, hv⟩ := lookupAlias_mem hl
      rw [← hv]
      exact aliasValsC_canon p hp
    | none =>
      by_cases hlen : (jsClean s).length = 3
      · rw [if_pos hlen]
        rw [normalizeTeamCode_of_ne (ne_empty_of_length3 hlen), jsClean_idem, hl,
          if_pos hlen]
      · rw [if_neg hlen]; decide

/-- C10 counterexample: the variant-A resolver (`src/api/index.ts`
lines 38–78) cited by the claim is NOT idempotent: "VEGAS" resolves to
the prefix "VEG", which the alias table then maps to "VGK". -/
theorem C10_counterexample :
    normalizeTeamCodeA "VEGAS" = "VEG"
    ∧ normalizeTeamCodeA (normalizeTeamCodeA "VEGAS") = "VGK"
    ∧ normalizeTeamCodeA (normalizeTeamCodeA "VEGAS") ≠ normalizeTeamCodeA "VEGAS" := by
  refine ⟨by decide, by decide, by decide⟩

/-- C4 (corrected).  The part_000 extractor (lines 58–67) returns 0 on a
null/absent record (clause 1); the `src/api/index.ts` extractor
(lines 27–35), which has no null guard, instead throws a TypeError as
soon as it reads `row[key]` on a null/absent record (clause 2; clause 3:
on a present record it agrees with the shared loop).  On a present
record, both return the parsed value of the first candidate field that is
present, non-null, non-empty and whose parse is not NaN — an infinite
parse is returned as-is, not skipped — and 0 when no candidate is usable
(clause 4, the first-usable-candidate characterization). -/
theorem C4_theorem :
    (∀ keys, getFloatSafe none keys = .fin 0)
    ∧ (∀ (k : String) (ks : List String), getFloatIdx none (k :: ks) = .error ())
    ∧ (∀ (r : Record) keys, getFloatIdx (some r) keys = .ok (getFloatLoop r keys))
    ∧ (∀ (r : Record) keys, getFloatLoop r keys = getFloatSpec r keys) := by
  exact ⟨fun _ => rfl, fun _ _ => rfl, fun _ _ => rfl,
    fun r keys => getFloatLoop_eq_spec r keys⟩

/-- C4 counterexample: the `src/api/index.ts` extractor throws (does not
return 0) on a null record, and a field holding the string "Infinity"
parses to a NON-finite value that is returned rather than skipped in
favour of the later finite candidate "5". -/
theorem C4_counterexample :
    getFloatIdx none ["iceTime"] = .error ()
    ∧ getFloatIdx none ["iceTime"] ≠ .ok (JsNum.fin 0)
    ∧ getFloatSafe (some [("a", JsValue.vStr "Infinity"), ("b", JsValue.vStr "5")])
        ["a", "b"] = JsNum.inf true
    ∧ (JsNum.inf true).isFinite = false := by
  refine ⟨rfl, ?_, by decide, rfl⟩
  intro h
  rw [show getFloatIdx none ["iceTime"] = .error () from rfl] at h
  exact Except.noConfusion h

theorem gt_one_zero : jsGt (JsNum.fin 1) (JsNum.fin 0) = true := by
  simp [jsGt]

theorem ppOppsC_of_zero {r : Record}
    (h : getFloatLoop r ["penaltiesDrawn", "penaltiesDrawnPer60"] = .fin 0) :
    ppOppsC r = .fin 1 := by
  rw [ppOppsC, h, jsOr_of_falsy truthy_fin_zero]

theorem pkOppsC_of_zero {r : Record}
    (h : getFloatLoop r ["penaltiesTaken", "penaltiesTakenPer60"] = .fin 0) :
    pkOppsC r = .fin 1 := by
  rw [pkOppsC, h, jsOr_of_falsy truthy_fin_zero]

/-- With a zero opportunity count the `|| 1` guard makes the denominator
1, so the power-play percentage is the raw goal count times 100. -/
theorem ppPercentC_zero_opp {r : Record} {g : ℚ}
    (h0 : getFloatLoop r ["penaltiesDrawn", "penaltiesDrawnPer60"] = .fin 0)
    (hg : ppGoalsC r = .fin g) : ppPercentC r = .fin (g * 100) := by
  rw [ppPercentC, ppOppsC_of_zero h0, hg, gt_one_zero, if_pos rfl, jsDiv_one,
    jsMul_fin]

theorem pkPercentC_zero_opp {r : Record} {g : ℚ}
    (h0 : getFloatLoop r ["penaltiesTaken", "penaltiesTakenPer60"] = .fin 0)
    (hg : pkGoalsAgainstC r = .fin g) : pkPercentC r = .fin (100 - g * 100) := by
  rw [pkPercentC, pkOppsC_of_zero h0, hg, gt_one_zero, if_pos rfl, jsDiv_one,
    jsMul_fin, jsSub_fin]

/-- C2 (corrected).  In the cited synthesizer (`src/api/index.ts`
lines 632–639), a zero opportunity count is replaced by 1 through the
`|| 1` guard, so with opportunity count 0 the power-play percentage is
the power-play goal count times 100 — exactly 0 only when that goal count
is 0 — and the penalty-kill percentage is 100 minus the goals-against
count times 100 — exactly 100 only when that count is 0. -/
theorem C2_theorem :
    (∀ (r : Record) (g : ℚ),
      getFloatLoop r ["penaltiesDrawn", "penaltiesDrawnPer60"] = .fin 0 →
      ppGoalsC r = .fin g →
      ppPercentC r = .fin (g * 100) ∧ (ppPercentC r = .fin 0 ↔ g = 0))
    ∧ (∀ (r : Record) (g : ℚ),
      getFloatLoop r ["penaltiesTaken", "penaltiesTakenPer60"] = .fin 0 →
      pkGoalsAgainstC r = .fin g →
      pkPercentC r = .fin (100 - g * 100) ∧ (pkPercentC r = .fin 100 ↔ g = 0)) := by
  constructor
  · intro r g h0 hg
    have h := ppPercentC_zero_opp h0 hg
    refine ⟨h, ?_⟩
    rw [h]
    simp only [JsNum.fin.injEq, mul_eq_zero]
    constructor
    · rintro (h | h)
      · exact h
      · norm_num at h
    · intro h; exact Or.inl h
  · intro r g h0 hg
    have h := pkPercentC_zero_opp h0 hg
    refine ⟨h, ?_⟩
    rw [h]
    simp only [JsNum.fin.injEq]
    constructor
    · intro hh
      have : g * 100 = 0 := by linarith
      rcases mul_eq_zero.mp this with h | h
      · exact h
      · norm_num at h
    · intro hh; rw [hh]; norm_num

/-- C2 witness: on the concrete record with zero opportunities, two
power-play goals and zero power-play goals against, the synthesizer
yields ppPercent 200 and pkPercent 100. -/
theorem C2_witness :
    ppPercentC rowAllBosZeroOpp = JsNum.fin 200
    ∧ pkPercentC rowAllBosZeroOpp = JsNum.fin 100 := by
  have hd : getFloatLoop rowAllBosZeroOpp ["penaltiesDrawn", "penaltiesDrawnPer60"]
      = JsNum.fin 0 := by
    rw [show getFloatLoop rowAllBosZeroOpp ["penaltiesDrawn", "penaltiesDrawnPer60"]
      = JsNum.fin (mkQ true 0 0 0 0) from rfl]
    norm_num [mkQ]
  have hg : ppGoalsC rowAllBosZeroOpp = JsNum.fin 2 := by
    rw [show ppGoalsC rowAllBosZeroOpp = JsNum.fin (mkQ true 2 0 0 0) from rfl]
    norm_num [mkQ]
  have ht : getFloatLoop rowAllBosZeroOpp ["penaltiesTaken", "penaltiesTakenPer60"]
      = JsNum.fin 0 := by
    rw [show getFloatLoop rowAllBosZeroOpp ["penaltiesTaken", "penaltiesTakenPer60"]
      = JsNum.fin (mkQ true 0 0 0 0) from rfl]
    norm_num [mkQ]
  have ha : pkGoalsAgainstC rowAllBosZeroOpp = JsNum.fin 0 := by
    rw [show pkGoalsAgainstC rowAllBosZeroOpp = JsNum.fin (mkQ true 0 0 0 0) from rfl]
    norm_num [mkQ]
  have h1 := (C2_theorem.1 rowAllBosZeroOpp 2 hd hg).1
  have h2 := ((C2_theorem.2 rowAllBosZeroOpp 0 ht ha).2).mpr rfl
  refine ⟨?_, h2⟩
  rw [h1]; norm_num

/-- C2 counterexample: a record whose power-play opportunity count
extracts to exactly 0 while two power-play goals are recorded gets
ppPercent 200, not the claimed 0. -/
theorem C2_counterexample :
    getFloatLoop rowAllBosZeroOpp ["penaltiesDrawn", "penaltiesDrawnPer60"] = JsNum.fin 0
    ∧ ppPercentC rowAllBosZeroOpp = JsNum.fin 200
    ∧ ppPercentC rowAllBosZeroOpp ≠ JsNum.fin 0 := by
  have hd : getFloatLoop rowAllBosZeroOpp ["penaltiesDrawn", "penaltiesDrawnPer60"]
      = JsNum.fin 0 := by
    rw [show getFloatLoop rowAllBosZeroOpp ["penaltiesDrawn", "penaltiesDrawnPer60"]
      = JsNum.fin (mkQ true 0 0 0 0) from rfl]
    norm_num [mkQ]
  have hg : ppGoalsC rowAllBosZeroOpp = JsNum.fin 2 := by
    rw [show ppGoalsC rowAllBosZeroOpp = JsNum.fin (mkQ true 2 0 0 0) from rfl]
    norm_num [mkQ]
  have h := ppPercentC_zero_opp hd hg
  refine ⟨hd, by rw [h]; norm_num, ?_⟩
  rw [h]
  intro hc
  simp only [JsNum.fin.injEq] at hc
  norm_num at hc

/-- With a positive extracted sum the guarded variant (index.ts 263–265)
computes the exact share formula. -/
theorem hdcfA_formula {r : Record} {f a : ℚ} (hf : hdForA r = .fin f)
    (ha : hdAgA r = .fin a) (hpos : 0 < f + a) :
    hdcfA r = .fin (f / (f + a) * 100) := by
  unfold hdcfA
  rw [hf, ha, jsAdd_fin]
  rw [if_pos (by simp [jsGt, hpos]), jsDiv_fin_of_ne _ (ne_of_gt hpos), jsMul_fin]

theorem hdcfA_both_zero {r : Record} (hf : hdForA r = .fin 0)
    (ha : hdAgA r = .fin 0) : hdcfA r = .fin 50 := by
  unfold hdcfA
  rw [hf, ha, jsAdd_fin]
  rw [if_neg (by simp [jsGt])]

theorem hdcfA_equal {r : Record} {f : ℚ} (hf : hdForA r = .fin f)
    (ha : hdAgA r = .fin f) (hpos : 0 < f) : hdcfA r = .fin 50 := by
  rw [hdcfA_formula hf ha (by linarith)]
  congr 1
  have h2 : f + f ≠ 0 := by positivity
  field_simp
  ring

/-- In the `|| 50` variant (index.ts 654–655) a zero "for" extraction
always collapses to 50, whatever the "against" extraction. -/
theorem hdcfC_zero_for {r : Record} {a : ℚ} (hf : hdForC r = .fin 0)
    (ha : hdAgC r = .fin a) : hdcfPercentC r = .fin 50 := by
  unfold hdcfPercentC
  rw [hf, ha, jsAdd_fin, zero_add]
  by_cases haz : a = 0
  · subst haz
    rw [show jsDiv (JsNum.fin 0) (JsNum.fin 0) = JsNum.nan by simp [jsDiv]]
    rfl
  · rw [jsDiv_zero_num haz, jsMul_fin, zero_mul, jsOr_of_falsy truthy_fin_zero]

/-- C3 (corrected).  The guarded variant (index.ts 263–265, part_000
127–129) computes `hdFor / (hdFor + hdAg) * 100` whenever the extracted
sum is positive (clause 1) and 50 when both extractions are zero
(clause 2) — but the formula itself also yields exactly 50 whenever the
two extractions are equal and positive (clause 3), so 50 does not occur
ONLY at both-zero; and in the cited `|| 50` variant (index.ts 654–655) a
team with hdFor = 0 and any hdAg gets 50, not 0 (clause 4). -/
theorem C3_theorem :
    (∀ (r : Record) (f a : ℚ), hdForA r = .fin f → hdAgA r = .fin a →
      0 < f + a → hdcfA r = .fin (f / (f + a) * 100))
    ∧ (∀ r : Record, hdForA r = .fin 0 → hdAgA r = .fin 0 → hdcfA r = .fin 50)
    ∧ (∀ (r : Record) (f : ℚ), hdForA r = .fin f → hdAgA r = .fin f →
      0 < f → hdcfA r = .fin 50)
    ∧ (∀ (r : Record) (a : ℚ), hdForC r = .fin 0 → hdAgC r = .fin a →
      hdcfPercentC r = .fin 50) :=
  ⟨fun _ _ _ hf ha hpos => hdcfA_formula hf ha hpos,
   fun _ hf ha => hdcfA_both_zero hf ha,
   fun _ _ hf ha hpos => hdcfA_equal hf ha hpos,
   fun _ _ hf ha => hdcfC_zero_for hf ha⟩

/-- C3 witness: concrete instances of each clause. -/
theorem C3_witness :
    hdcfA row5Bos = JsNum.fin (10 / (10 + 8) * 100)
    ∧ hdcfA rowHdEqual = JsNum.fin 50
    ∧ hdcfPercentC rowHdZero = JsNum.fin 50 := by
  have hf : hdForA row5Bos = JsNum.fin 10 := by
    rw [show hdForA row5Bos = JsNum.fin (mkQ true 10 0 0 0) from rfl]
    norm_num [mkQ]
  have ha : hdAgA row5Bos = JsNum.fin 8 := by
    rw [show hdAgA row5Bos = JsNum.fin (mkQ true 8 0 0 0) from rfl]
    norm_num [mkQ]
  have hf3 : hdForA rowHdEqual = JsNum.fin 3 := by
    rw [show hdForA rowHdEqual = JsNum.fin (mkQ true 3 0 0 0) from rfl]
    norm_num [mkQ]
  have ha3 : hdAgA rowHdEqual = JsNum.fin 3 := by
    rw [show hdAgA rowHdEqual = JsNum.fin (mkQ true 3 0 0 0) from rfl]
    norm_num [mkQ]
  have hfz : hdForC rowHdZero = JsNum.fin 0 := by
    rw [show hdForC rowHdZero = JsNum.fin (mkQ true 0 0 0 0) from rfl]
    norm_num [mkQ]
  have haz : hdAgC rowHdZero = JsNum.fin 5 := by
    rw [show hdAgC rowHdZero = JsNum.fin (mkQ true 5 0 0 0) from rfl]
    norm_num [mkQ]
  exact ⟨C3_theorem.1 row5Bos 10 8 hf ha (by norm_num),
    C3_theorem.2.2.1 rowHdEqual 3 hf3 ha3 (by norm_num),
    C3_theorem.2.2.2 rowHdZero 5 hfz haz⟩

/-- C3 counterexample: with hdFor = 0 and hdAg = 5 the cited `|| 50`
variant yields 50, not the 0 the claim requires; and with hdFor = hdAg =
3 > 0 the guarded variant yields exactly 50 although not both terms are
zero. -/
theorem C3_counterexample :
    hdForC rowHdZero = JsNum.fin 0
    ∧ hdAgC rowHdZero = JsNum.fin 5
    ∧ hdcfPercentC rowHdZero = JsNum.fin 50
    ∧ hdcfPercentC rowHdZero ≠ JsNum.fin 0
    ∧ hdcfA rowHdEqual = JsNum.fin 50 := by
  have hfz : hdForC rowHdZero = JsNum.fin 0 := by
    rw [show hdForC rowHdZero = JsNum.fin (mkQ true 0 0 0 0) from rfl]
    norm_num [mkQ]
  have haz : hdAgC rowHdZero = JsNum.fin 5 := by
    rw [show hdAgC rowHdZero = JsNum.fin (mkQ true 5 0 0 0) from rfl]
    norm_num [mkQ]
  have hfy : hdForA rowHdEqual = JsNum.fin 3 := by
    rw [show hdForA rowHdEqual = JsNum.fin (mkQ true 3 0 0 0) from rfl]
    norm_num [mkQ]
  have hay : hdAgA rowHdEqual = JsNum.fin 3 := by
    rw [show hdAgA rowHdEqual = JsNum.fin (mkQ true 3 0 0 0) from rfl]
    norm_num [mkQ]
  have h50 := hdcfC_zero_for hfz haz
  refine ⟨hfz, haz, h50, ?_, hdcfA_equal hfy hay (by norm_num)⟩
  rw [h50]
  intro hc
  simp only [JsNum.fin.injEq] at hc
  norm_num at hc

/-- C5 (corrected).  Variant B (index.ts 429–434, cited) behaves as
claimed: a missing mandatory split yields the marker `{name: code,
error: "Stats Not Found"}` carrying the code (clause 2), inside a 200
response (clause 1) whose two team results are computed independently
(clause 3), and the synthesizer is a total function (never throws).
Variant A (index.ts 219–260, also cited) does not: a missing 5-on-5 row
yields a bare `null` carrying no code (clause 4), and a missing
"all situations" row with a present 5-on-5 row throws a TypeError at
line 259, failing the whole request with a 500 (clause 5). -/
theorem C5_theorem :
    (∀ (teams : List Record) (events : List EventR) (ph pa : String),
      (statsEndpointB teams events ph pa).status = 200)
    ∧ (∀ (teams : List Record) (code : String),
      findRowB teams code "5on5" = none ∨ findRowB teams code "all" = none →
      getSavantStatsB teams code = .notFound code)
    ∧ (∀ (teams : List Record) (events : List EventR) (ph pa : String),
      (statsEndpointB teams events ph pa).home = getSavantStatsB teams ph
      ∧ (statsEndpointB teams events ph pa).away = getSavantStatsB teams pa)
    ∧ (∀ (teams gs : List Record) (st : List (String × String)) (code g : String),
      findRowA teams code "5on5" = none →
      getSavantStatsA teams gs st code g = .ok none)
    ∧ (∀ (teams gs : List Record) (st : List (String × String)) (code g : String)
        (r : Record),
      findRowA teams code "5on5" = some r → findRowA teams code "all" = none →
      getSavantStatsA teams gs st code g = .error ()) := by
  refine ⟨fun _ _ _ _ => rfl, ?_, fun _ _ _ _ => ⟨rfl, rfl⟩, ?_, ?_⟩
  · intro teams code h
    unfold getSavantStatsB
    rcases h with h | h
    · rw [h]
    · rw [h]
      cases findRowB teams code "5on5" <;> rfl
  · intro teams gs st code g h
    unfold getSavantStatsA
    rw [h]
  · intro teams gs st code g r h5 hall
    simp only [getSavantStatsA, h5, hall]

/-- C5 witness: with a dataset holding only a 5-on-5 row for BOS,
variant B returns a 200 whose home result is the marker carrying "BOS",
while variant A throws; with an empty dataset variant A returns a bare
null. -/
theorem C5_witness :
    (statsEndpointB [row5Bos] [] "BOS" "TOR").status = 200
    ∧ getSavantStatsB [row5Bos] "BOS" = .notFound "BOS"
    ∧ getSavantStatsA [row5Bos] [] [] "BOS" "" = .error ()
    ∧ getSavantStatsA [] [] [] "BOS" "" = .ok none :=
  ⟨C5_theorem.1 [row5Bos] [] "BOS" "TOR",
   C5_theorem.2.1 [row5Bos] "BOS" (Or.inr (by decide)),
   C5_theorem.2.2.2.2 [row5Bos] [] [] "BOS" "" row5Bos (by decide) (by decide),
   C5_theorem.2.2.2.1 [] [] [] "BOS" "" (by decide)⟩

/-- C5 counterexample: for the cited variant A synthesizer the claim
fails at a concrete input — with a 5-on-5 row but no "all situations"
row it throws (a 500, not a NotFound-in-200), and with no rows at all it
returns a bare null that carries no team code. -/
theorem C5_counterexample :
    getSavantStatsA [row5Bos] [] [] "BOS" "" = .error ()
    ∧ getSavantStatsA [] [] [] "BOS" "" = .ok none := by
  exact ⟨rfl, rfl⟩

theorem isFinite_jsOr_fin {x : JsNum} (c : ℚ)
    (h : x.isNaN = true ∨ x.isFinite = true) :
    (jsOr x (.fin c)).isFinite = true := by
  rcases h with h | h
  · cases x with
    | nan => rfl
    | inf s => simp [JsNum.isNaN] at h
    | fin q => simp [JsNum.isNaN] at h
  · obtain ⟨q, rfl⟩ := exists_fin_of_isFinite h
    unfold jsOr
    by_cases hq : (JsNum.fin q).truthy = true
    · rw [if_pos hq]; rfl
    · rw [if_neg hq]; rfl

/-- The `|| 50`-style high-danger share is finite whenever both
extractions are finite and nonnegative. -/
theorem hdcf_shape_finite {f a : JsNum} {qf qa : ℚ} (hf : f = .fin qf)
    (ha : a = .fin qa) (h0f : 0 ≤ qf) (h0a : 0 ≤ qa) :
    (jsOr (jsMul (jsDiv f (jsAdd f a)) (.fin 100)) (.fin 50)).isFinite = true := by
  subst hf ha
  rw [jsAdd_fin]
  by_cases hs : qf + qa = 0
  · have hqf : qf = 0 := by linarith
    subst hqf
    rw [hs]
    rw [show jsDiv (JsNum.fin 0) (JsNum.fin 0) = JsNum.nan by simp [jsDiv]]
    rfl
  · rw [jsDiv_fin_of_ne _ hs, jsMul_fin]
    exact isFinite_jsOr_fin 50 (Or.inr rfl)

theorem jsMul_inf_pos {b : ℚ} (hb : 0 < b) (s : Bool) :
    jsMul (.inf s) (.fin b) = .inf s := by
  have hb' : b ≠ 0 := ne_of_gt hb
  simp only [jsMul, if_neg hb']
  congr 1
  simp [hb]

/-- C6 (corrected).  In variant B (index.ts 436–447, cited): whenever the
two mandatory rows are found and every extracted field value is finite
(CSV numbers; the two high-danger counts nonnegative, as counts are),
every numeric field of the produced result is finite: all denominators
are `|| 1`-guarded (clause 1).  Variant A's goalie metrics are likewise
finite under finite extractions (clause 2).  But the claim fails for the
cited variant A team metrics (index.ts 259–281): its ppPercent and
pkPercent denominators are NOT guarded — see the counterexample. -/
theorem C6_theorem :
    (∀ (teams : List Record) (code : String) (r5 rA : Record),
      findRowB teams code "5on5" = some r5 →
      findRowB teams code "all" = some rA →
      (getFloatLoop rA ["iceTime"]).isFinite = true →
      (getFloatLoop rA ["gamesPlayed"]).isFinite = true →
      (getFloatLoop rA ["goalsFor"]).isFinite = true →
      (getFloatLoop rA ["goalsAgainst"]).isFinite = true →
      (getFloatLoop rA ["penaltiesDrawn"]).isFinite = true →
      (getFloatLoop rA ["penaltiesTaken"]).isFinite = true →
      (getFloatLoop rA ["penaltiesMinutes"]).isFinite = true →
      (getFloatLoop rA ["faceOffWinPercentage"]).isFinite = true →
      (getFloatLoop r5 ["iceTime"]).isFinite = true →
      (getFloatLoop r5 ["xGoalsAgainst"]).isFinite = true →
      (getFloatLoop r5 ["xGoalsPercentage"]).isFinite = true →
      (getFloatLoop r5 ["shootingPercentage"]).isFinite = true →
      (getFloatLoop r5 ["corsiPercentage"]).isFinite = true →
      (∀ rp, findRowB teams code "5on4" = some rp →
        (getFloatLoop rp ["goalsFor"]).isFinite = true) →
      (∀ rk, findRowB teams code "4on5" = some rk →
        (getFloatLoop rk ["goalsAgainst"]).isFinite = true) →
      (∃ qf, getFloatLoop r5 ["highDangerGoalsFor"] = .fin qf ∧ 0 ≤ qf) →
      (∃ qa, getFloatLoop r5 ["highDangerGoalsAgainst"] = .fin qa ∧ 0 ≤ qa) →
      allFiniteB (getSavantStatsB teams code) = true)
    ∧ (∀ (g : Record) (status : String),
      (getFloatLoop g ["iceTime"]).isFinite = true →
      (getFloatLoop g ["goalsSavedAboveExpected"]).isFinite = true →
      (getFloatLoop g ["goalsAgainst"]).isFinite = true →
      (getFloatLoop g ["savePercentage"]).isFinite = true →
      (goalieStatsOf g status).gsax.isFinite = true
      ∧ (goalieStatsOf g status).gaa.isFinite = true
      ∧ (goalieStatsOf g status).svPct.isFinite = true) := by
  constructor
  · intro teams code r5 rA h5 hA hIceA hGP hGF hGA hPD hPT hPM hFO hIce5 hXGA
      hXGP hSh hCo hPP hPK hHF hHA
    obtain ⟨qiA, hqiA⟩ := exists_fin_of_isFinite hIceA
    obtain ⟨piA, horA, hpA0⟩ := orOne_fin hqiA
    obtain ⟨qi5, hqi5⟩ := exists_fin_of_isFinite hIce5
    obtain ⟨pi5, hor5, hp50⟩ := orOne_fin hqi5
    obtain ⟨qgp, hqgp⟩ := exists_fin_of_isFinite hGP
    obtain ⟨pgp, horgp, hpgp0⟩ := orOne_fin hqgp
    obtain ⟨qpd, hqpd⟩ := exists_fin_of_isFinite hPD
    obtain ⟨ppd, horpd, hppd0⟩ := orOne_fin hqpd
    obtain ⟨qpt, hqpt⟩ := exists_fin_of_isFinite hPT
    obtain ⟨ppt, horpt, hppt0⟩ := orOne_fin hqpt
    obtain ⟨qf, hqf, h0f⟩ := hHF
    obtain ⟨qa, hqa, h0a⟩ := hHA
    have hppG : (match findRowB teams code "5on4" with
        | some rowPP => getFloatLoop rowPP ["goalsFor"]
        | none => JsNum.fin 0).isFinite = true := by
      cases hx : findRowB teams code "5on4" with
      | none => rfl
      | some rp => exact hPP rp hx
    have hpkG : (match findRowB teams code "4on5" with
        | some rowPK => getFloatLoop rowPK ["goalsAgainst"]
        | none => JsNum.fin 0).isFinite = true := by
      cases hx : findRowB teams code "4on5" with
      | none => rfl
      | some rk => exact hPK rk hx
    simp only [getSavantStatsB, h5, hA, allFiniteB, Bool.and_eq_true]
    rw [horA, hor5, horgp, horpd, horpt]
    refine ⟨⟨⟨⟨⟨⟨⟨⟨⟨⟨?_, ?_⟩, ?_⟩, ?_⟩, ?_⟩, ?_⟩, ?_⟩, ?_⟩, ?_⟩, ?_⟩, ?_⟩
    · exact isFinite_div_mul hGF hpA0 3600
    · exact isFinite_div_mul hGA hpA0 3600
    · exact isFinite_div_mul hXGA hp50 3600
    · exact isFinite_mul_fin hXGP 100
    · exact hdcf_shape_finite hqf hqa h0f h0a
    · exact isFinite_div_mul hppG hppd0 100
    · exact isFinite_sub_fin 100 (isFinite_div_mul hpkG hppt0 100)
    · exact isFinite_div_fin hPM hpgp0
    · exact isFinite_mul_fin hFO 100
    · exact isFinite_mul_fin hSh 100
    · exact isFinite_mul_fin hCo 100
  · intro g status hIce hGsae hGa hSv
    obtain ⟨qi, hqi⟩ := exists_fin_of_isFinite hIce
    obtain ⟨pi, hor, hp0⟩ := orOne_fin hqi
    unfold goalieStatsOf
    rw [hor]
    exact ⟨isFinite_div_mul hGsae hp0 3600,
      isFinite_div_fin (isFinite_mul_fin hGa 3600) hp0, hSv⟩

/-- The ppPercent field produced by variant A once both rows are found:
`(getFloat(all,['ppGoalsFor']) / getFloat(all,['penaltiesDrawn'])) * 100 || 0`
(index.ts line 272) — the denominator is unguarded. -/
theorem ppOfA_eq {teams gs : List Record} {st : List (String × String)}
    {code g : String} {r5 rA : Record}
    (h5 : findRowA teams code "5on5" = some r5)
    (hA : findRowA teams code "all" = some rA) :
    ppOfA (getSavantStatsA teams gs st code g) =
      some (jsOr (jsMul (jsDiv (getFloatLoop rA ["ppGoalsFor"])
        (getFloatLoop rA ["penaltiesDrawn"])) (.fin 100)) (.fin 0)) := by
  simp only [getSavantStatsA, h5, hA, ppOfA]

/-- C6 witness: on the concrete BOS dataset every variant B metric is
finite, as are variant A's goalie metrics for a concrete goaltender. -/
theorem C6_witness :
    allFiniteB (getSavantStatsB [row5Bos, rowAllBosZeroOpp] "BOS") = true
    ∧ (goalieStatsOf goalieBos "Confirmed").gsax.isFinite = true
    ∧ (goalieStatsOf goalieBos "Confirmed").gaa.isFinite = true
    ∧ (goalieStatsOf goalieBos "Confirmed").svPct.isFinite = true := by
  have h1 := C6_theorem.1 [row5Bos, rowAllBosZeroOpp] "BOS" row5Bos rowAllBosZeroOpp
    (by decide) (by decide) rfl rfl rfl rfl rfl rfl rfl rfl rfl rfl rfl rfl rfl
    (fun rp hx => by
      rw [show findRowB [row5Bos, rowAllBosZeroOpp] "BOS" "5on4" = none from rfl] at hx
      exact Option.noConfusion hx)
    (fun rk hx => by
      rw [show findRowB [row5Bos, rowAllBosZeroOpp] "BOS" "4on5" = none from rfl] at hx
      exact Option.noConfusion hx)
    ⟨mkQ true 4 0 0 0, rfl, by norm_num [mkQ]⟩
    ⟨mkQ true 2 0 0 0, rfl, by norm_num [mkQ]⟩
  have h2 := C6_theorem.2 goalieBos "Confirmed" rfl rfl rfl rfl
  exact ⟨h1, h2.1, h2.2.1, h2.2.2⟩

/-- C6 counterexample: in the cited variant A synthesizer, a record with
two power-play goals and zero penalties drawn yields ppPercent =
+Infinity — the claim that no metric is ever Infinity is false. -/
theorem C6_counterexample :
    ppOfA (getSavantStatsA [row5Bos, rowAllBosZeroOpp] [] [] "BOS" "")
      = some (JsNum.inf true)
    ∧ (JsNum.inf true).isFinite = false := by
  have h5 : findRowA [row5Bos, rowAllBosZeroOpp] "BOS" "5on5" = some row5Bos := by
    decide
  have hA : findRowA [row5Bos, rowAllBosZeroOpp] "BOS" "all" = some rowAllBosZeroOpp := by
    decide
  have hg : getFloatLoop rowAllBosZeroOpp ["ppGoalsFor"] = JsNum.fin 2 := by
    rw [show getFloatLoop rowAllBosZeroOpp ["ppGoalsFor"]
      = JsNum.fin (mkQ true 2 0 0 0) from rfl]
    norm_num [mkQ]
  have h0 : getFloatLoop rowAllBosZeroOpp ["penaltiesDrawn"] = JsNum.fin 0 := by
    rw [show getFloatLoop rowAllBosZeroOpp ["penaltiesDrawn"]
      = JsNum.fin (mkQ true 0 0 0 0) from rfl]
    norm_num [mkQ]
  rw [ppOfA_eq h5 hA, hg, h0, jsDiv_pos_zero (by norm_num : (0:ℚ) < 2),
    jsMul_inf_pos (by norm_num : (0:ℚ) < 100) true,
    jsOr_of_truthy (show (JsNum.inf true).truthy = true from rfl)]
  exact ⟨rfl, rfl⟩

/-- C7 (corrected).  For the cited analytics refresh block (index.ts
154–163): a closed gate leaves everything unchanged (clause 1); a fetch
failure (clause 2) or a failure parsing the teams CSV (clause 3) leaves
both datasets and the timestamp unchanged — stale data stays available;
a fully successful refresh replaces both datasets and the timestamp
together (clause 4).  BUT the refresh is not atomic: when the teams CSV
parses and the goalies CSV then fails to parse, the execution leaves
`cachedTeamStats` updated while `cachedGoalieStats` and the timestamp
keep their old values (clause 5). -/
theorem C7_theorem :
    (∀ (parse : String → Except Unit (List Record)) (st : StatsCacheSt) (now : ℤ)
      (fetched : Except Unit (String × String)),
      shouldFetchStats st.teams st.ts now = false →
      refreshStats parse st now fetched = (st, false))
    ∧ (∀ parse (st : StatsCacheSt) (now : ℤ),
      shouldFetchStats st.teams st.ts now = true →
      refreshStats parse st now (.error ()) = (st, true))
    ∧ (∀ parse (st : StatsCacheSt) (now : ℤ) (pt pg : String),
      shouldFetchStats st.teams st.ts now = true →
      parse pt = .error () →
      refreshStats parse st now (.ok (pt, pg)) = (st, true))
    ∧ (∀ parse (st : StatsCacheSt) (now : ℤ) (pt pg : String) (dt dg : List Record),
      shouldFetchStats st.teams st.ts now = true →
      parse pt = .ok dt → parse pg = .ok dg →
      refreshStats parse st now (.ok (pt, pg))
        = ({ teams := some dt, goalies := some dg, ts := now }, false))
    ∧ (∀ parse (st : StatsCacheSt) (now : ℤ) (pt pg : String) (dt : List Record),
      shouldFetchStats st.teams st.ts now = true →
      parse pt = .ok dt → parse pg = .error () →
      refreshStats parse st now (.ok (pt, pg))
        = ({ teams := some dt, goalies := st.goalies, ts := st.ts }, true)) := by
  refine ⟨?_, ?_, ?_, ?_, ?_⟩
  · intro parse st now fetched h
    unfold refreshStats
    rw [h]
    rfl
  · intro parse st now h
    unfold refreshStats
    rw [h]
    rfl
  · intro parse st now pt pg h hpt
    unfold refreshStats
    rw [h]
    simp only [hpt, if_true]
  · intro parse st now pt pg dt dg h hpt hpg
    unfold refreshStats
    rw [h]
    simp only [hpt, hpg, if_true]
  · intro parse st now pt pg dt h hpt hpg
    unfold refreshStats
    rw [h]
    simp only [hpt, hpg, if_true]

/-- C7 witness: with a stale cache, a fully successful refresh replaces
both datasets and the timestamp; a teams-CSV parse failure changes
nothing. -/
theorem C7_witness :
    refreshStats parseDemo stDemo 10000000 (.ok ("ok", "ok"))
      = ({ teams := some [[("team", JsValue.vStr "BOS")]],
           goalies := some [[("team", JsValue.vStr "BOS")]],
           ts := 10000000 }, false)
    ∧ refreshStats parseDemo stDemo 10000000 (.ok ("bad", "ok")) = (stDemo, true) :=
  ⟨C7_theorem.2.2.2.1 parseDemo stDemo 10000000 "ok" "ok"
      [[("team", JsValue.vStr "BOS")]] [[("team", JsValue.vStr "BOS")]]
      (by decide) rfl rfl,
   C7_theorem.2.2.1 parseDemo stDemo 10000000 "bad" "ok" (by decide) rfl⟩

/-- C7 counterexample: a refresh in which the teams CSV parses but the
goalies CSV fails leaves the teams dataset replaced while the goalie
dataset and the timestamp keep their previous values — one dataset of
the refresh is updated while its sibling and the timestamp are not. -/
theorem C7_counterexample :
    refreshStats parseDemo stDemo 10000000 (.ok ("ok", "bad"))
      = ({ teams := some [[("team", JsValue.vStr "BOS")]],
           goalies := some [], ts := 0 }, true)
    ∧ some [[("team", JsValue.vStr "BOS")]] ≠ stDemo.teams
    ∧ stDemo.goalies = some []
    ∧ stDemo.ts = 0 := by
  refine ⟨by decide, by decide, rfl, rfl⟩

/-- C8 (corrected).  In the cited variant A cache (index.ts 13–24,
154–194) each source has its own cache entry, timestamp and TTL, and a
gate opens only on a cold cache or after TTL expiry: while the entry is
younger than its TTL no fetch is issued (clauses 2–4), and once expired
the gate opens (clause 5) and the single if-block issues exactly one
refresh attempt per request.  But the TTLs are 60 minutes for analytics
(not the claimed 30), 5 minutes for odds and 15 minutes for starters
(clause 1) — and in cited variant B the odds gate (line 398) reads the
ANALYTICS timestamp and no odds timestamp is ever written. -/
theorem C8_theorem :
    (STATS_CACHE = 3600000 ∧ ODDS_CACHE = 300000 ∧ STARTER_CACHE = 900000
      ∧ CACHE_DURATION = 1800000)
    ∧ (∀ (d : List Record) (last now : ℤ), now - last ≤ (STATS_CACHE : ℤ) →
        shouldFetchStats (some d) last now = false)
    ∧ (∀ (d : List Record) (last now : ℤ), now - last ≤ (ODDS_CACHE : ℤ) →
        shouldFetchOdds (some d) last now = false)
    ∧ (∀ (d : List Record) (last now : ℤ), now - last ≤ (STARTER_CACHE : ℤ) →
        shouldFetchStarter (some d) last now = false)
    ∧ (∀ (cached : Option (List Record)) (last now : ℤ),
        cached = none ∨ now - last > (STATS_CACHE : ℤ) →
        shouldFetchStats cached last now = true) := by
  refine ⟨⟨rfl, rfl, rfl, rfl⟩, ?_, ?_, ?_, ?_⟩
  · intro d last now h
    simp only [shouldFetchStats, Option.isNone_some, Bool.false_or,
      decide_eq_false_iff_not, not_lt]
    exact h
  · intro d last now h
    simp only [shouldFetchOdds, Option.isNone_some, Bool.false_or,
      decide_eq_false_iff_not, not_lt]
    exact h
  · intro d last now h
    simp only [shouldFetchStarter, Option.isNone_some, Bool.false_or,
      decide_eq_false_iff_not, not_lt]
    exact h
  · intro cached last now h
    rcases h with h | h
    · subst h; rfl
    · simp [shouldFetchStats, h]

/-- C8 witness: concrete gate evaluations — a 10-minute-old analytics
entry is served from cache, a 2-hour-old one triggers a refresh. -/
theorem C8_witness :
    shouldFetchStats (some []) 0 600000 = false
    ∧ shouldFetchOdds (some []) 0 240000 = false
    ∧ shouldFetchStarter (some []) 0 600000 = false
    ∧ shouldFetchStats (some []) 0 7200000 = true :=
  ⟨C8_theorem.2.1 [] 0 600000 (by decide),
   C8_theorem.2.2.1 [] 0 240000 (by decide),
   C8_theorem.2.2.2.1 [] 0 600000 (by decide),
   C8_theorem.2.2.2.2 (some []) 0 7200000 (Or.inr (by decide))⟩

/-- C8 counterexample: the analytics TTL constant of the cited cache
(index.ts line 22) is one hour, not the 30 minutes stated by the claim. -/
theorem C8_counterexample :
    STATS_CACHE = 3600000 ∧ STATS_CACHE ≠ 1000 * 60 * 30 := by
  exact ⟨rfl, by decide⟩

/-- C9 (corrected).  The odds object is indeed never null/absent.  In
cited variant A (index.ts 197–216, 287): the scan uses resolved canonical
codes and matches in either home/away order (clause 5), but with no
matching game (clause 1) or a matching game without market data
(clause 2) the default is `{source: "Not Found", line: "OFF", total:
"6.5"}` — source "Not Found", not the documented "ESPN".  In cited
variant B (index.ts 397–421) the default is the documented
`{source: "ESPN", line: "OFF", total: "6.5"}` (clauses 3 and 4), but the
scan compares RAW abbreviations, not resolved codes. -/
theorem C9_theorem :
    (∀ (events : List EventR) (th ta : String),
      matchGameA events th ta = none →
      oddsResponseA events th ta = ⟨"Not Found", "OFF", .vStr "6.5"⟩)
    ∧ (∀ (events : List EventR) (th ta : String) (e : EventR),
      matchGameA events th ta = some e → e.odds = none →
      oddsResponseA events th ta = ⟨"Not Found", "OFF", .vStr "6.5"⟩)
    ∧ (∀ (events : List EventR) (ph pa : String),
      matchGameB events ph pa = none →
      oddsResponseB events ph pa = ⟨"ESPN", "OFF", .vStr "6.5"⟩)
    ∧ (∀ (events : List EventR) (ph pa : String) (e : EventR),
      matchGameB events ph pa = some e → e.odds = none →
      oddsResponseB events ph pa = ⟨"ESPN", "OFF", .vStr "6.5"⟩)
    ∧ (∀ (e : EventR) (rest : List EventR) (th ta : String),
      normalizeTeamCodeA e.abbrA = ta → normalizeTeamCodeA e.abbrB = th →
      matchGameA (e :: rest) th ta = some e) := by
  refine ⟨?_, ?_, ?_, ?_, ?_⟩
  · intro events th ta h
    simp [oddsResponseA, gameOddsA, h]
  · intro events th ta e hm ho
    simp [oddsResponseA, gameOddsA, hm, ho]
  · intro events ph pa h
    simp [oddsResponseB, h]
  · intro events ph pa e hm ho
    simp [oddsResponseB, hm, ho]
  · intro e rest th ta h1 h2
    unfold matchGameA
    apply List.find?_cons_of_pos
    simp [h1, h2]

/-- C9 witness: the never-null defaults at concrete inputs, and a
reversed-order match through resolved codes in variant A. -/
theorem C9_witness :
    oddsResponseA [] "BOS" "TOR" = ⟨"Not Found", "OFF", .vStr "6.5"⟩
    ∧ oddsResponseB [] "BOS" "TOR" = ⟨"ESPN", "OFF", .vStr "6.5"⟩
    ∧ matchGameA [⟨"TOR", "BOS", none⟩] "BOS" "TOR" = some ⟨"TOR", "BOS", none⟩ :=
  ⟨C9_theorem.1 [] "BOS" "TOR" rfl,
   C9_theorem.2.2.1 [] "BOS" "TOR" rfl,
   C9_theorem.2.2.2.2 ⟨"TOR", "BOS", none⟩ [] "BOS" "TOR" (by decide) (by decide)⟩

/-- C9 counterexample: variant A's no-match default carries source
"Not Found", not the documented "ESPN"; and variant B misses a game whose
RESOLVED codes match the requested pair ("TB" resolves to "TBL") because
it compares raw abbreviations, returning the default despite present
market data. -/
theorem C9_counterexample :
    oddsResponseA [] "BOS" "TOR" = ⟨"Not Found", "OFF", .vStr "6.5"⟩
    ∧ ("Not Found" : String) ≠ "ESPN"
    ∧ matchGameB [⟨"TB", "DET", some ⟨some "DET -150", some (.fin 6)⟩⟩] "TBL" "DET" = none
    ∧ oddsResponseB [⟨"TB", "DET", some ⟨some "DET -150", some (.fin 6)⟩⟩] "TBL" "DET"
        = ⟨"ESPN", "OFF", .vStr "6.5"⟩
    ∧ normalizeTeamCode "TB" = "TBL"
    ∧ normalizeTeamCode "TBL" = "TBL"
    ∧ normalizeTeamCode "DET" = "DET" := by
  refine ⟨by decide, by decide, by decide, by decide, by decide, by decide, by decide⟩
